import Mathlib

/-!
# NetArchitect — shallow embedding and verification of the core spec claims

This file embeds the core of the NetArchitect network simulator:

* `validateConnection`, `isValidIP`, `getSubnet`, `findPath` from
  `src/services/rules.ts`;
* the terminal interpreter (`matchCmd`, `getSortedEdges`, `ensureInterface`,
  the output generators and `handleCommand`) from the terminal component
  (`src/unnamed/part_001`), together with the arrow-key history recall.

JavaScript strings are embedded as `List Char` (named `JStr`) so that every
definition is executable and kernel-reducible; the JS string methods used by
the source (`trim`, `toLowerCase`, `split`, `startsWith`, `includes`,
`padStart`, `padEnd`, `parseInt`, first-occurrence `replace`) are modelled by
the `js*` helpers below, each faithful to the ECMAScript behaviour on the
inputs the program produces.
-/

/-- JavaScript strings, embedded as lists of characters. -/
abbrev JStr := List Char

/-- Conversion from Lean string literals to the embedding. -/
def jstr (s : String) : JStr := s.data

/-- JS `String.prototype.trim()`: drop leading and trailing whitespace. -/
def jsTrim (s : JStr) : JStr :=
  ((s.dropWhile Char.isWhitespace).reverse.dropWhile Char.isWhitespace).reverse

/-- Worker for `jsSplitWs`. `cur` is the (reversed) piece being accumulated and
`inRun` records whether we are inside a whitespace run (so that a run of
several whitespace characters produces a single break, as `/\s+/` does). -/
def jsSplitWsGo : List Char → JStr → Bool → List JStr
  | [], cur, _ => [cur.reverse]
  | c :: cs, cur, inRun =>
    if c.isWhitespace then
      if inRun then jsSplitWsGo cs [] true
      else cur.reverse :: jsSplitWsGo cs [] true
    else jsSplitWsGo cs (c :: cur) false

/-- JS `s.split(/\s+/)`: split at maximal whitespace runs.  A leading or
trailing run contributes an empty piece, exactly as in JavaScript. -/
def jsSplitWs (s : JStr) : List JStr := jsSplitWsGo s [] false

/-- Worker for `jsSplitOn` (split on an exact substring separator).  The `Nat`
argument is fuel bounding the number of characters still to scan; every step
consumes at least one character, so fuel `s.length` never runs out. -/
def jsSplitOnGo (sep : List Char) : Nat → List Char → List Char → List JStr
  | _, [], cur => [cur.reverse]
  | 0, l, cur => [cur.reverse ++ l]
  | fuel + 1, c :: cs, cur =>
    if sep ≠ [] ∧ sep.isPrefixOf (c :: cs) then
      cur.reverse :: jsSplitOnGo sep fuel (List.drop (sep.length - 1) cs) []
    else jsSplitOnGo sep fuel cs (c :: cur)

/-- JS `s.split(sep)` for a non-empty string separator: split at every
occurrence of `sep`, keeping empty pieces. -/
def jsSplitOn (sep : JStr) (s : JStr) : List JStr := jsSplitOnGo sep s.length s []

/-- JS `s.includes(sub)` (for the non-empty search strings the source uses). -/
def jsIncludes (s sub : JStr) : Bool := (jsSplitOn sub s).length ≠ 1

/-- JS `s.padStart(n, c)`. -/
def jsPadStart (s : JStr) (n : Nat) (c : Char) : JStr :=
  List.replicate (n - s.length) c ++ s

/-- JS `s.padEnd(n, c)`. -/
def jsPadEnd (s : JStr) (n : Nat) (c : Char) : JStr :=
  s ++ List.replicate (n - s.length) c

/-- JS `s.replace(pat, repl)` with a string pattern: replace the first
occurrence of the non-empty `pat` only. -/
def jsReplaceOnce (s : JStr) (pat repl : JStr) : JStr :=
  match s with
  | [] => []
  | c :: cs =>
    if pat ≠ [] ∧ pat.isPrefixOf (c :: cs) then repl ++ (c :: cs).drop pat.length
    else c :: jsReplaceOnce cs pat repl

/-- Value of a decimal digit character. -/
def digitVal (c : Char) : Nat := c.toNat - '0'.toNat

/-- Value of a hexadecimal digit character, if it is one. -/
def hexVal (c : Char) : Option Nat :=
  if c.isDigit then some (digitVal c)
  else if 'a' ≤ c ∧ c ≤ 'f' then some (c.toNat - 'a'.toNat + 10)
  else if 'A' ≤ c ∧ c ≤ 'F' then some (c.toNat - 'A'.toNat + 10)
  else none

/-- Accumulate digit values in the given base. -/
def digitsToNat (base : Nat) (ds : List Nat) : Nat :=
  ds.foldl (fun a d => a * base + d) 0

/-- JS `parseInt(s)` with no radix argument: skip leading whitespace, read an
optional sign, detect a `0x`/`0X` prefix (hexadecimal), then parse the longest
prefix of digits of the selected base; `NaN` (here `none`) if there are no
digits.  Trailing garbage is ignored, as in JavaScript. -/
def jsParseInt (s : JStr) : Option Int :=
  let t := s.dropWhile Char.isWhitespace
  let signAndRest : Int × JStr :=
    match t with
    | '-' :: r => (-1, r)
    | '+' :: r => (1, r)
    | _ => (1, t)
  let baseAndDigits : Nat × JStr :=
    match signAndRest.2 with
    | '0' :: 'x' :: r => (16, r)
    | '0' :: 'X' :: r => (16, r)
    | r => (10, r)
  let ds : List Nat :=
    if baseAndDigits.1 = 16 then
      (baseAndDigits.2.takeWhile (fun c => (hexVal c).isSome)).map
        (fun c => (hexVal c).getD 0)
    else (baseAndDigits.2.takeWhile Char.isDigit).map digitVal
  if ds = [] then none
  else some (signAndRest.1 * (digitsToNat baseAndDigits.1 ds : Int))

/-- Render a natural number in decimal (worker). -/
def natDigitChar (d : Nat) : Char :=
  match d with
  | 0 => '0' | 1 => '1' | 2 => '2' | 3 => '3' | 4 => '4'
  | 5 => '5' | 6 => '6' | 7 => '7' | 8 => '8' | _ => '9'

/-- Render a natural number in decimal, accumulating from the low digits; the
first argument is fuel (`n` itself always suffices since `n / 10 < n`). -/
def natToJStrGo : Nat → Nat → JStr → JStr
  | _, 0, acc => acc
  | 0, _, acc => acc
  | fuel + 1, n + 1, acc =>
    natToJStrGo fuel ((n + 1) / 10) (natDigitChar ((n + 1) % 10) :: acc)

/-- Decimal rendering of a natural number, as JS `String(n)`. -/
def natToJStr (n : Nat) : JStr := if n = 0 then ['0'] else natToJStrGo n n []

/-- JS template rendering `${i}` of an integer. -/
def intToJStr (i : Int) : JStr :=
  if i < 0 then '-' :: natToJStr i.natAbs else natToJStr i.natAbs

/-- JS string truthiness applied to an optional field: `a || b` returns `b`
when `a` is `undefined` or the empty string. -/
def jsOrStr (a : Option JStr) (b : JStr) : JStr :=
  match a with
  | some s => if s = [] then b else s
  | none => b

/-- Lexicographic (code-unit) order on the embedded strings; this models the
`localeCompare`-based and default-`sort()` comparisons of the source, which
coincide with code-unit order on the ASCII identifiers the program uses. -/
def jstrLe : JStr → JStr → Bool
  | [], _ => true
  | _ :: _, [] => false
  | a :: as, b :: bs => if a < b then true else if b < a then false else jstrLe as bs

/-!
## Data model (`types.ts`)
-/

/-- `DeviceType` from `types.ts`. -/
inductive DeviceType where
  | ROUTER | SWITCH_L2 | SWITCH_L3 | FIREWALL | PC | LAPTOP | SERVER
  | ACCESS_POINT | PRINTER | PHONE | HUB | INTERNET | SDWAN_EDGE
deriving DecidableEq, Repr

/-- The string value of a `DeviceType` enum member (they are string enums). -/
def DeviceType.str : DeviceType → JStr
  | .ROUTER => jstr "ROUTER"
  | .SWITCH_L2 => jstr "SWITCH_L2"
  | .SWITCH_L3 => jstr "SWITCH_L3"
  | .FIREWALL => jstr "FIREWALL"
  | .PC => jstr "PC"
  | .LAPTOP => jstr "LAPTOP"
  | .SERVER => jstr "SERVER"
  | .ACCESS_POINT => jstr "ACCESS_POINT"
  | .PRINTER => jstr "PRINTER"
  | .PHONE => jstr "PHONE"
  | .HUB => jstr "HUB"
  | .INTERNET => jstr "INTERNET"
  | .SDWAN_EDGE => jstr "SDWAN_EDGE"

/-- `InterfaceConfig` from `types.ts`.  Optional fields are `Option`;
JavaScript's `undefined` is `none`. -/
structure InterfaceConfig where
  name : JStr
  description : Option JStr := none
  ip : Option JStr := none
  mask : Option JStr := none
  shutdown : Bool := false
  switchportMode : Option JStr := none
  accessVlan : Option Int := none
  trunkAllowedVlans : Option JStr := none
  nativeVlan : Option Int := none
deriving DecidableEq, Repr

/-- The fields of `NetworkNodeData` from `types.ts` that the core reads or
writes.  `vlanDb` (a JS object with numeric keys) is an association list; JS
enumerates the canonical nonnegative integer keys of an object in ascending
order, so insertions keep that order (see `vlanDbSet`).  `interfaces` (string
keys) is an association list in insertion order. -/
structure NetworkNodeData where
  label : JStr
  type : DeviceType
  ip : Option JStr := none
  status : JStr
  hostname : Option JStr := none
  ipRouting : Option Bool := none
  vlanDb : Option (List (Int × JStr)) := none
  interfaces : Option (List (JStr × InterfaceConfig)) := none
  assignedVlan : Option Int := none
deriving DecidableEq, Repr

/-- A react-flow node carrying `NetworkNodeData` (position etc. omitted:
the core never reads them). -/
structure NetworkNode where
  id : JStr
  data : NetworkNodeData
deriving DecidableEq, Repr

/-- A react-flow edge: the link record (`id, source, target`). -/
structure Edge where
  id : JStr
  source : JStr
  target : JStr
deriving DecidableEq, Repr

/-- `PacketSimulationResult` from `types.ts`.  `hops` is a count, so `Nat`
(the source only ever stores `0` or `path.length - 1` with a non-empty
path). -/
structure PacketSimulationResult where
  success : Bool
  path : List JStr
  hops : Nat
  message : JStr
deriving DecidableEq, Repr

/-- Assignment `obj[k] = v` on a JS object with numeric keys: an existing
key's value is replaced in place; a new canonical (nonnegative) integer key
enters the ascending block of integer keys; any other key (e.g. a negative
id) is appended, since JS enumerates such keys in insertion order after the
integer keys. -/
def vlanDbSet (db : List (Int × JStr)) (k : Int) (v : JStr) : List (Int × JStr)
  :=
  match db with
  | [] => [(k, v)]
  | (k', v') :: rest =>
    if k' = k then (k, v) :: rest
    else if 0 ≤ k ∧ (k' < 0 ∨ k < k') ∧ (db.lookup k).isNone then
      (k, v) :: (k', v') :: rest
    else (k', v') :: vlanDbSet rest k v

/-!
## `src/services/rules.ts`
-/

/-- Advisory level of a connection validation. -/
inductive ConnLevel where
  | warning | error | info
deriving DecidableEq, Repr

/-- Return type of `validateConnection`; `level` is an optional field and is
omitted (i.e. `none`) by the final branch of the source. -/
structure ConnectionValidation where
  isValid : Bool
  message : JStr
  level : Option ConnLevel := none
deriving DecidableEq, Repr

/-- `validateConnection` from `rules.ts`. -/
def validateConnection (sourceType targetType : DeviceType) :
    ConnectionValidation :=
  if sourceType = .PC ∧ targetType = .PC then
    { isValid := true,
      message := jstr "PC connected directly to PC. Ensure IPs are in the same subnet.",
      level := some .warning }
  else if sourceType = .INTERNET ∧ targetType = .PC then
    { isValid := true,
      message := jstr "DANGER: Direct Internet connection to PC! Please use a Firewall or Router.",
      level := some .error }
  else if sourceType = .SWITCH_L2 ∧ targetType = .INTERNET then
    { isValid := true,
      message := jstr "L2 Switches cannot terminate ISP links directly without a Router/Gateway.",
      level := some .warning }
  else { isValid := true, message := jstr "Connection established." }

/-- `isValidIP` from `rules.ts`: `ip && /^(?:[0-9]{1,3}\.){3}[0-9]{1,3}$/`,
i.e. exactly four dot-separated groups of one to three decimal digits (no
0–255 range check).  A missing (`none`) or empty string is falsy. -/
def isValidIP (ip : Option JStr) : Bool :=
  match ip with
  | none => false
  | some s =>
    s ≠ [] &&
      match jsSplitOn (jstr ".") s with
      | [a, b, c, d] =>
        [a, b, c, d].all fun g =>
          decide (1 ≤ g.length) && decide (g.length ≤ 3) && g.all Char.isDigit
      | _ => false

/-- `getSubnet` from `rules.ts`: the first three dot-separated groups. -/
def getSubnet (ip : JStr) : JStr :=
  List.intercalate (jstr ".") ((jsSplitOn (jstr ".") ip).take 3)

/-- One `adjacencyList` update of `findPath`: ensure the key exists, then
push `v` onto its list (JS `Map` keeps key insertion order; pushes append). -/
def adjPush (adj : List (JStr × List JStr)) (k v : JStr) :
    List (JStr × List JStr) :=
  if (adj.lookup k).isSome then
    adj.map fun p => if p.1 = k then (p.1, p.2 ++ [v]) else p
  else adj ++ [(k, [v])]

/-- The adjacency list built by `findPath` over all edges: each edge inserts
its target into its source's neighbour list and vice versa. -/
def buildAdjacency (edges : List Edge) : List (JStr × List JStr) :=
  edges.foldl (fun adj e => adjPush (adjPush adj e.source e.target) e.target e.source) []

/-- A queue entry of the BFS in `findPath`: a node id and the path to it. -/
structure QueueEntry where
  id : JStr
  path : List JStr
deriving DecidableEq, Repr

/-- The BFS loop of `findPath`.  The queue is popped from the front and
pushed at the back; a neighbour is marked visited when enqueued.  The `Nat`
is fuel: every enqueued entry was marked visited at enqueue time and ids are
never unmarked, so at most `1 + 2·|edges|` entries are ever enqueued and the
fuel passed by `bfsSearch` can never be the reason for a `none` answer. -/
def bfsLoop (adj : List (JStr × List JStr)) (endId : JStr) :
    Nat → List QueueEntry → List JStr → Option (List JStr)
  | 0, _, _ => none
  | _ + 1, [], _ => none
  | fuel + 1, current :: rest, visited =>
    if current.id = endId then some current.path
    else
      let neighbors := (adj.lookup current.id).getD []
      let next :=
        neighbors.foldl
          (fun (acc : List QueueEntry × List JStr) neighborId =>
            if acc.2.contains neighborId then acc
            else (acc.1 ++ [⟨neighborId, current.path ++ [neighborId]⟩],
                  acc.2 ++ [neighborId]))
          (rest, visited)
      bfsLoop adj endId fuel next.1 next.2

/-- The physical-connectivity search of `findPath` (its BFS section):
`some path` iff the loop discovers the target. -/
def bfsSearch (edges : List Edge) (startNodeId endNodeId : JStr) :
    Option (List JStr) :=
  bfsLoop (buildAdjacency edges) endNodeId (2 * edges.length + 2)
    [⟨startNodeId, [startNodeId]⟩] [startNodeId]

/-- The predicate of the `brokenDevice` scan in `findPath`: the node with
this id resolves and has status `down` (an unresolved id is not `down`,
since `undefined === 'down'` is false). -/
def isDownOn (nodes : List NetworkNode) (id : JStr) : Bool :=
  match nodes.find? (fun n => n.id == id) with
  | some node => node.data.status == jstr "down"
  | none => false

/-- The predicate of the `hasRouter` scan in `findPath`: the node with this
id resolves and is a Router, L3 switch or Firewall. -/
def isRoutingCapableOn (nodes : List NetworkNode) (id : JStr) : Bool :=
  match nodes.find? (fun n => n.id == id) with
  | some node =>
    node.data.type == DeviceType.ROUTER || node.data.type == DeviceType.SWITCH_L3
      || node.data.type == DeviceType.FIREWALL
  | none => false

/-- `findPath` from `rules.ts`. -/
def findPath (nodes : List NetworkNode) (edges : List Edge)
    (startNodeId endNodeId : JStr) : PacketSimulationResult :=
  match nodes.find? (fun n => n.id == startNodeId),
      nodes.find? (fun n => n.id == endNodeId) with
  | none, _ =>
    { success := false, path := [], hops := 0, message := jstr "Device not found." }
  | some _, none =>
    { success := false, path := [], hops := 0, message := jstr "Device not found." }
  | some startNode, some endNode =>
    if isValidIP startNode.data.ip = false then
      { success := false, path := [], hops := 0,
        message := jstr "Configuration Error: Source device (" ++ startNode.data.label
          ++ jstr ") is missing a valid IP address." }
    else if isValidIP endNode.data.ip = false then
      { success := false, path := [], hops := 0,
        message := jstr "Configuration Error: Destination device (" ++ endNode.data.label
          ++ jstr ") is missing a valid IP address." }
    else
      let sourceIP := startNode.data.ip.getD []
      let targetIP := endNode.data.ip.getD []
      let sourceSubnet := getSubnet sourceIP
      let targetSubnet := getSubnet targetIP
      let isSameSubnet := sourceSubnet = targetSubnet
      match bfsSearch edges startNodeId endNodeId with
      | none =>
        { success := false, path := [], hops := 0,
          message := jstr "Physical Link Error: No cable connection exists between these devices." }
      | some physicalPath =>
        match physicalPath.find? (isDownOn nodes) with
        | some brokenDevice =>
          let label :=
            match nodes.find? (fun n => n.id == brokenDevice) with
            | some node => node.data.label
            | none => jstr "undefined"
          { success := false, path := physicalPath, hops := 0,
            message := jstr "Link Failure: Packet dropped at " ++ label
              ++ jstr " (Device is DOWN)." }
        | none =>
          if isSameSubnet = false ∧ physicalPath.any (isRoutingCapableOn nodes) = false then
            { success := false, path := physicalPath, hops := 0,
              message := jstr "Routing Error: Devices are in different subnets ("
                ++ sourceSubnet ++ jstr ".x vs " ++ targetSubnet
                ++ jstr ".x) but no Router/Gateway was found in the path." }
          else
            { success := true, path := physicalPath, hops := physicalPath.length - 1,
              message := jstr "Success! Packet delivered from " ++ sourceIP
                ++ jstr " to " ++ targetIP ++ jstr " via "
                ++ natToJStr (physicalPath.length - 1) ++ jstr " hops." }

/-!
## Terminal interpreter (`src/unnamed/part_001`)
-/

/-- JS truthiness of an optional string: `undefined` and `''` are falsy. -/
def jsTruthyStr (a : Option JStr) : Bool := a.getD [] ≠ []

/-- The token loop of `matchCmd`: for every canonical (`target`) token
position, a typed token must exist (JS `!inputParts[i]`, so `undefined` and
the empty token both fail) and the canonical token must start with it.
Typed tokens beyond the canonical count are not inspected. -/
def matchParts : List JStr → List JStr → Bool
  | _, [] => true
  | [], _ :: _ => false
  | i :: is, t :: ts => i ≠ [] && i.isPrefixOf t && matchParts is ts

/-- `matchCmd` from the terminal component.  The empty input string is falsy
and never matches; the input is trimmed and both sides are lowercased before
splitting on whitespace runs.  (The source also contains an empty
`if (inputParts.length > targetParts.length && targetParts.length > 1) {}`
block, which has no effect and is not modelled.) -/
def matchCmd (inputStr target : JStr) : Bool :=
  if inputStr = [] then false
  else
    matchParts (jsSplitWs ((jsTrim inputStr).map Char.toLower))
      (jsSplitWs (target.map Char.toLower))

/-- Stable insertion sort; models JS `Array.prototype.sort`, which is stable
and, with the total comparators the source uses, produces the unique stable
ascending ordering. -/
def insertSorted (le : α → α → Bool) (x : α) : List α → List α
  | [] => [x]
  | y :: ys => if le x y then x :: y :: ys else y :: insertSorted le x ys

/-- Stable sort by the given comparator (see `insertSorted`). -/
def insertionSort (le : α → α → Bool) : List α → List α
  | [] => []
  | x :: xs => insertSorted le x (insertionSort le xs)

/-- `getSortedEdges`: the edges incident to the device, sorted by edge id
(the source sorts with `localeCompare`, which is code-unit order on the
ASCII ids the program generates — see `jstrLe`). -/
def getSortedEdges (edges : List Edge) (nodeId : JStr) : List Edge :=
  insertionSort (fun a b => jstrLe a.id b.id)
    (edges.filter fun e => e.source == nodeId || e.target == nodeId)

/-- `getInterfaceName`: position `idx` (0-based) maps to
`GigabitEthernet0/(idx+1)`. -/
def getInterfaceName (idx : Nat) : JStr :=
  jstr "GigabitEthernet0/" ++ natToJStr (idx + 1)

/-- `getShortInterfaceName`. -/
def getShortInterfaceName (idx : Nat) : JStr := jstr "Gi0/" ++ natToJStr (idx + 1)

/-- `getNode`: resolve the session's bound device (`state.nodeId` may be
null, in which case no node matches). -/
def getNode (nodes : List NetworkNode) (nodeId : Option JStr) : Option NetworkNode :=
  match nodeId with
  | some i => nodes.find? fun n => n.id == i
  | none => none

/-- The record `ensureInterface` creates for a new name: shutdown off,
access mode, access VLAN 1, all VLANs allowed on trunk. -/
def defaultInterfaceConfig (ifName : JStr) : InterfaceConfig :=
  { name := ifName, shutdown := false, switchportMode := some (jstr "access"),
    accessVlan := some 1, trunkAllowedVlans := some (jstr "1-4094") }

/-- `ensureInterface`: create the interface record with its defaults if the
name is absent (a missing `interfaces` table is first replaced by the empty
table); an existing record is left as it is. -/
def ensureInterface (node : NetworkNode) (ifName : JStr) : NetworkNode :=
  let interfaces := node.data.interfaces.getD []
  let interfaces1 :=
    if (interfaces.lookup ifName).isSome then interfaces
    else interfaces ++ [(ifName, defaultInterfaceConfig ifName)]
  { node with data := { node.data with interfaces := some interfaces1 } }

/-- `getHelp`: the per-mode command listing. -/
def getHelp (mode : JStr) : JStr :=
  let cmds : List (JStr × JStr) :=
    if mode = jstr ">" then
      [(jstr "enable", jstr "Turn on privileged commands"),
       (jstr "ping", jstr "Send echo messages"),
       (jstr "show", jstr "Show running system information"),
       (jstr "exit", jstr "Exit from the EXEC")]
    else if mode = jstr "#" then
      [(jstr "configure", jstr "Enter configuration mode"),
       (jstr "show running-config", jstr "Show current config"),
       (jstr "show vlan", jstr "Show VLAN information"),
       (jstr "show ip interface", jstr "IP interface status"),
       (jstr "reload", jstr "Halt and perform a cold restart")]
    else if mode = jstr "(config)#" then
      [(jstr "hostname", jstr "Set system network name"),
       (jstr "interface", jstr "Select interface to configure"),
       (jstr "vlan", jstr "VLAN configuration mode"),
       (jstr "ip routing", jstr "Enable IP routing"),
       (jstr "exit", jstr "Exit from configure mode")]
    else if mode = jstr "(config-if)#" then
      [(jstr "switchport", jstr "Set switching mode characteristics"),
       (jstr "ip address", jstr "Set the IP address of an interface"),
       (jstr "shutdown", jstr "Shutdown the selected interface"),
       (jstr "no shutdown", jstr "Restart the selected interface"),
       (jstr "exit", jstr "Exit from interface mode")]
    else if mode = jstr "(config-vlan)#" then
      [(jstr "name", jstr "Ascii name of the VLAN"),
       (jstr "exit", jstr "Exit from VLAN mode")]
    else []
  cmds.foldl
    (fun out c => out ++ jstr "  " ++ jsPadEnd c.1 20 ' ' ++ jstr " " ++ c.2 ++ jstr "\n")
    (jstr "Exec commands:\n")

/-- `getDynamicIpIntBrief`: one line per incident edge in sorted order, plus
a static line when the device has no edges. -/
def getDynamicIpIntBrief (nodes : List NetworkNode) (edges : List Edge)
    (nodeId : Option JStr) : JStr :=
  match getNode nodes nodeId with
  | none => []
  | some n =>
    let nodeEdges := getSortedEdges edges n.id
    let header :=
      jstr "Interface              IP-Address      OK? Method Status                Protocol\n"
    let body :=
      nodeEdges.enum.foldl
        (fun out ie =>
          let ifName := getInterfaceName ie.1
          let config := (n.data.interfaces.getD []).lookup ifName
          let ip := jsOrStr (config.bind (·.ip)) (jstr "unassigned")
          let method :=
            if jsTruthyStr (config.bind (·.ip)) then jstr "manual" else jstr "unset"
          let adminStatus :=
            if (config.map (·.shutdown)).getD false then jstr "admin down" else jstr "up"
          let protoStatus :=
            if (config.map (·.shutdown)).getD false then jstr "down" else jstr "up"
          out ++ jsPadEnd ifName 22 ' ' ++ jstr " " ++ jsPadEnd ip 15 ' '
            ++ jstr " YES " ++ jsPadEnd method 6 ' ' ++ jstr " "
            ++ jsPadEnd adminStatus 20 ' ' ++ protoStatus ++ jstr "\n")
        header
    if nodeEdges.length = 0 then
      body ++ jstr "GigabitEthernet0/1     unassigned      YES unset  up                    down\n"
    else body

/-- `getRunningConfig`. -/
def getRunningConfig (nodes : List NetworkNode) (nodeId : Option JStr) : JStr :=
  match getNode nodes nodeId with
  | none => []
  | some n =>
    let d := n.data
    let out0 := jstr "Building configuration...\n\nversion 15.2\nhostname "
      ++ jsOrStr d.hostname d.label ++ jstr "\n!\n"
    let out1 :=
      match d.vlanDb with
      | some db =>
        db.foldl
          (fun out p =>
            out ++ jstr "vlan " ++ intToJStr p.1 ++ jstr "\n name " ++ p.2 ++ jstr "\n!\n")
          out0
      | none => out0
    let sortedIfs := insertionSort jstrLe ((d.interfaces.getD []).map (·.1))
    let out2 :=
      sortedIfs.foldl
        (fun out ifName =>
          match (d.interfaces.getD []).lookup ifName with
          | none => out
          | some intConf =>
            let o1 := out ++ jstr "interface " ++ ifName ++ jstr "\n"
            let o2 :=
              if jsTruthyStr intConf.description then
                o1 ++ jstr " description " ++ intConf.description.getD [] ++ jstr "\n"
              else o1
            let o3 :=
              if intConf.switchportMode = some (jstr "access") then
                let a := o2 ++ jstr " switchport mode access\n"
                if intConf.accessVlan ≠ some 1 then
                  a ++ jstr " switchport access vlan "
                    ++ (match intConf.accessVlan with
                        | some v => intToJStr v
                        | none => jstr "undefined") ++ jstr "\n"
                else a
              else o2
            let o4 :=
              if intConf.switchportMode = some (jstr "trunk") then
                o3 ++ jstr " switchport mode trunk\n switchport trunk allowed vlan "
                  ++ (match intConf.trunkAllowedVlans with
                      | some v => v
                      | none => jstr "undefined") ++ jstr "\n"
              else o3
            let o5 :=
              if jsTruthyStr intConf.ip then
                o4 ++ jstr " ip address " ++ intConf.ip.getD [] ++ jstr " "
                  ++ (match intConf.mask with
                      | some m => m
                      | none => jstr "undefined") ++ jstr "\n"
              else o4
            let o6 := if intConf.shutdown then o5 ++ jstr " shutdown\n" else o5
            o6 ++ jstr "!\n")
        out1
    out2 ++ jstr "end"

/-- JS falsiness of `vlanDb[k]`: the key is absent or its name is `''`. -/
def vlanDbFalsyAt (db : List (Int × JStr)) (k : Int) : Bool :=
  match db.lookup k with
  | some s => s == []
  | none => true

/-- `getVlanBrief`.  (In the source, `if (!vlanDb[1]) vlanDb[1] = 'default'`
mutates the shared table object as a side effect of a show command; only the
rendered text is modelled here.) -/
def getVlanBrief (nodes : List NetworkNode) (nodeId : Option JStr) : JStr :=
  match getNode nodes nodeId with
  | none => []
  | some n =>
    let vlanDb := n.data.vlanDb.getD [(1, jstr "default")]
    let vlanDb1 :=
      if vlanDbFalsyAt vlanDb 1 then vlanDbSet vlanDb 1 (jstr "default")
      else vlanDb
    let header := jstr "VLAN Name                             Status    Ports\n"
      ++ jstr "---- -------------------------------- --------- -------------------------------\n"
    let sorted := insertionSort (fun a b => a.1 ≤ b.1) vlanDb1
    sorted.foldl
      (fun out p =>
        let ports :=
          ((n.data.interfaces.getD []).map (·.2)).foldl
            (fun ps config =>
              if config.switchportMode = some (jstr "access") ∧
                  (match config.accessVlan with
                   | some v => if v = 0 then 1 else v
                   | none => 1) = p.1 then
                ps ++ [jsReplaceOnce
                        (jsReplaceOnce config.name (jstr "GigabitEthernet") (jstr "Gi"))
                        (jstr "FastEthernet") (jstr "Fa")]
              else ps)
            []
        out ++ jsPadEnd (intToJStr p.1) 4 ' ' ++ jstr " " ++ jsPadEnd p.2 32 ' '
          ++ jstr " active    " ++ List.intercalate (jstr ", ") ports ++ jstr "\n")
      header

/-- The session fields of `TerminalState` that the interpreter reads or
writes (`isOpen` is GUI state and never influences command handling). -/
structure TerminalState where
  nodeId : Option JStr
  history : List JStr
  hostname : JStr
  mode : JStr
deriving DecidableEq, Repr

/-- A terminal session: the persisted `TerminalState` plus the component's
context state (`contextInt`, `contextVlan`, `contextLine`). -/
structure InterpSession where
  state : TerminalState
  contextInt : JStr
  contextVlan : Int
  contextLine : JStr
deriving DecidableEq, Repr

/-- The observable outcome of one `handleCommand` call: the session and node
list afterwards, the `response` text, whether the session was closed
(`exit` from user exec), whether a reload boot was started, and whether the
advisory-hint fetch (`getCLIFix`) was triggered (the source fires it exactly
when the response starts with `'%'`). -/
structure StepResult where
  session : InterpSession
  nodes : List NetworkNode
  response : JStr
  closed : Bool
  booting : Bool
  aiHintTriggered : Bool
deriving DecidableEq, Repr

/-- The common tail of `handleCommand`: `appendOutput(response)` followed by
`onUpdateState({mode, hostname, history})` and the advisory-hint check. -/
def finishStep (nodes : List NetworkNode) (st : TerminalState)
    (newHistory : List JStr) (newMode newHostname : JStr) (contextInt : JStr)
    (contextVlan : Int) (contextLine : JStr) (response : JStr) : StepResult :=
  { session :=
      { state :=
          { nodeId := st.nodeId, history := newHistory, hostname := newHostname,
            mode := newMode },
        contextInt := contextInt, contextVlan := contextVlan,
        contextLine := contextLine },
    nodes := nodes, response := response, closed := false, booting := false,
    aiHintTriggered := List.isPrefixOf (jstr "%") response }

/-- An early `return` of `handleCommand` (empty line, `clear`/`cls`): the
session state is not written back, so history and mode are untouched. -/
def earlyStep (s : InterpSession) (nodes : List NetworkNode) : StepResult :=
  { session := s, nodes := nodes, response := [], closed := false,
    booting := false, aiHintTriggered := false }

/-- The `do` support of `handleCommand` (section 1): run the rest of the
line as a privileged show/ping, regardless of the current mode. -/
def doResponse (nodes : List NetworkNode) (edges : List Edge)
    (st : TerminalState) (cmd : JStr) : JStr :=
  let subCmd := jsTrim (cmd.drop 3)
  if matchCmd subCmd (jstr "show run") then getRunningConfig nodes st.nodeId
  else if matchCmd subCmd (jstr "show vlan") then getVlanBrief nodes st.nodeId
  else if matchCmd subCmd (jstr "show ip int") then
    getDynamicIpIntBrief nodes edges st.nodeId
  else if matchCmd subCmd (jstr "ping") then
    jstr "Sending 5, 100-byte ICMP Echos... !!!!!"
  else jstr "% Unrecognized command"

/-- Section 2 of `handleCommand`: USER EXEC (`>`). -/
def userExecStep (nodes : List NetworkNode) (edges : List Edge)
    (s : InterpSession) (cmd : JStr) (tokens : List JStr)
    (newHistory : List JStr) : StepResult :=
  let st := s.state
  if matchCmd cmd (jstr "enable") = true ∨ cmd = jstr "en" then
    finishStep nodes st newHistory (jstr "#") st.hostname s.contextInt
      s.contextVlan s.contextLine []
  else if matchCmd cmd (jstr "ping") = true then
    let targetIP := tokens.getD 1 []
    if targetIP = [] then
      finishStep nodes st newHistory st.mode st.hostname s.contextInt
        s.contextVlan s.contextLine (jstr "% Incomplete command.")
    else
      match nodes.find? (fun n => n.data.ip == some targetIP) with
      | some targetNode =>
        let res := findPath nodes edges (st.nodeId.getD []) targetNode.id
        if res.success then
          finishStep nodes st newHistory st.mode st.hostname s.contextInt
            s.contextVlan s.contextLine
            (jstr "Sending 5, 100-byte ICMP Echos to " ++ targetIP
              ++ jstr ", timeout is 2 seconds:\n!!!!!\nSuccess rate is 100 percent (5/5).")
        else
          finishStep nodes st newHistory st.mode st.hostname s.contextInt
            s.contextVlan s.contextLine
            (jstr "Sending 5, 100-byte ICMP Echos to " ++ targetIP
              ++ jstr ", timeout is 2 seconds:\n.....\nSuccess rate is 0 percent (0/5).\n"
              ++ res.message)
      | none =>
        finishStep nodes st newHistory st.mode st.hostname s.contextInt
          s.contextVlan s.contextLine
          (jstr "Sending 5, 100-byte ICMP Echos to " ++ targetIP
            ++ jstr ", timeout is 2 seconds:\n.....\nSuccess rate is 0 percent (0/5).")
  else if matchCmd cmd (jstr "show version") = true ∨ cmd = jstr "sh ver" then
    finishStep nodes st newHistory st.mode st.hostname s.contextInt
      s.contextVlan s.contextLine
      (jstr "Cisco IOS Software, 15.2(4)E\nSystem image file is \"flash:C2960-LANBASEK9-M.bin\"")
  else if cmd ≠ jstr "exit" then
    finishStep nodes st newHistory st.mode st.hostname s.contextInt
      s.contextVlan s.contextLine (jstr "% Unknown command")
  else
    finishStep nodes st newHistory st.mode st.hostname s.contextInt
      s.contextVlan s.contextLine []

/-- Section 3 of `handleCommand`: PRIVILEGED EXEC (`#`).  The `reload`
branch returns early (history and mode are not written back); the timed
boot completion is asynchronous and outside this step function. -/
def privExecStep (nodes : List NetworkNode) (edges : List Edge)
    (s : InterpSession) (cmd firstToken : JStr) (newHistory : List JStr) :
    StepResult :=
  let st := s.state
  if matchCmd cmd (jstr "configure terminal") = true ∨ cmd = jstr "conf t" then
    finishStep nodes st newHistory (jstr "(config)#") st.hostname s.contextInt
      s.contextVlan s.contextLine
      (jstr "Enter configuration commands, one per line.  End with CNTL/Z.")
  else if matchCmd cmd (jstr "show running-config") = true ∨ cmd = jstr "sh run" then
    finishStep nodes st newHistory st.mode st.hostname s.contextInt
      s.contextVlan s.contextLine (getRunningConfig nodes st.nodeId)
  else if matchCmd cmd (jstr "show vlan brief") = true ∨ cmd = jstr "sh vlan br"
      ∨ cmd = jstr "sh vlan" then
    finishStep nodes st newHistory st.mode st.hostname s.contextInt
      s.contextVlan s.contextLine (getVlanBrief nodes st.nodeId)
  else if matchCmd cmd (jstr "show ip interface brief") = true
      ∨ cmd = jstr "sh ip int br" then
    finishStep nodes st newHistory st.mode st.hostname s.contextInt
      s.contextVlan s.contextLine (getDynamicIpIntBrief nodes edges st.nodeId)
  else if matchCmd cmd (jstr "reload") = true then
    { session := s, nodes := nodes, response := [], closed := false,
      booting := true, aiHintTriggered := false }
  else if firstToken = jstr "vlan" then
    finishStep nodes st newHistory st.mode st.hostname s.contextInt
      s.contextVlan s.contextLine
      (jstr "% Incomplete command. Use \"configure terminal\" first.")
  else if cmd ≠ jstr "exit" then
    finishStep nodes st newHistory st.mode st.hostname s.contextInt
      s.contextVlan s.contextLine (jstr "% Unknown command")
  else
    finishStep nodes st newHistory st.mode st.hostname s.contextInt
      s.contextVlan s.contextLine []

/-- Section 4 of `handleCommand`: GLOBAL CONFIG (`(config)#`). -/
def globalConfigStep (nodes : List NetworkNode) (s : InterpSession)
    (cmd : JStr) (tokens : List JStr) (firstToken : JStr)
    (newHistory : List JStr) : StepResult :=
  let st := s.state
  if matchCmd cmd (jstr "hostname") = true then
    let name := tokens.getD 1 []
    if name ≠ [] then
      finishStep
        (nodes.map fun n =>
          if st.nodeId == some n.id then
            { n with data := { n.data with hostname := some name, label := name } }
          else n)
        st newHistory st.mode name s.contextInt s.contextVlan s.contextLine []
    else
      finishStep nodes st newHistory st.mode st.hostname s.contextInt
        s.contextVlan s.contextLine []
  else if matchCmd cmd (jstr "interface") = true then
    let intName := tokens.getD 1 []
    if intName ≠ [] then
      let fullName :=
        if List.isPrefixOf (jstr "g") (intName.map Char.toLower) then
          jstr "GigabitEthernet" ++ (intName.drop 1).dropWhile Char.isAlpha
        else if List.isPrefixOf (jstr "f") (intName.map Char.toLower) then
          jstr "FastEthernet" ++ (intName.drop 1).dropWhile Char.isAlpha
        else intName
      finishStep
        (nodes.map fun n =>
          if st.nodeId == some n.id then ensureInterface n fullName else n)
        st newHistory (jstr "(config-if)#") st.hostname fullName s.contextVlan
        s.contextLine []
    else
      finishStep nodes st newHistory st.mode st.hostname s.contextInt
        s.contextVlan s.contextLine (jstr "% Incomplete command.")
  else if firstToken = jstr "vlan" then
    if ¬ (match getNode nodes st.nodeId with
          | some n => jsIncludes n.data.type.str (jstr "SWITCH")
          | none => false) = true then
      finishStep nodes st newHistory st.mode st.hostname s.contextInt
        s.contextVlan s.contextLine
        (jstr "% Command rejected: Device does not support VLANs.")
    else
      match jsParseInt (tokens.getD 1 []) with
      | some vid =>
        finishStep
          (nodes.map fun n =>
            if st.nodeId == some n.id then
              let vlanDb := n.data.vlanDb.getD [(1, jstr "default")]
              let vlanDb1 :=
                if vlanDbFalsyAt vlanDb vid then
                  vlanDbSet vlanDb vid
                    (jstr "VLAN" ++ jsPadStart (intToJStr vid) 4 '0')
                else vlanDb
              { n with data := { n.data with vlanDb := some vlanDb1 } }
            else n)
          st newHistory (jstr "(config-vlan)#") st.hostname s.contextInt vid
          s.contextLine []
      | none =>
        finishStep nodes st newHistory st.mode st.hostname s.contextInt
          s.contextVlan s.contextLine (jstr "% Invalid input detected at marker.")
  else if matchCmd cmd (jstr "ip routing") = true then
    finishStep
      (nodes.map fun n =>
        if st.nodeId == some n.id then
          { n with data := { n.data with ipRouting := some true } }
        else n)
      st newHistory st.mode st.hostname s.contextInt s.contextVlan
      s.contextLine []
  else if cmd ≠ jstr "exit" then
    finishStep nodes st newHistory st.mode st.hostname s.contextInt
      s.contextVlan s.contextLine (jstr "% Invalid input detected at marker.")
  else
    finishStep nodes st newHistory st.mode st.hostname s.contextInt
      s.contextVlan s.contextLine []

/-- The trailing digit group of an interface name: `contextInt.match(/\d+$/)`
returns it (`[]` here standing for a null match). -/
def trailingDigits (s : JStr) : JStr := (s.reverse.takeWhile Char.isDigit).reverse

/-- The `updateInt` helper of section 5: apply a field update to the bound
device's current interface record, provided the device, its interface table
and the record under `contextInt` all exist. -/
def updateInt (nodes : List NetworkNode) (nodeId : Option JStr)
    (contextInt : JStr) (f : InterfaceConfig → InterfaceConfig) :
    List NetworkNode :=
  nodes.map fun n =>
    if nodeId == some n.id then
      match n.data.interfaces with
      | some ifs =>
        match ifs.lookup contextInt with
        | some c =>
          let newIfs := ifs.map fun p => if p.1 == contextInt then (p.1, f c) else p
          { n with data := { n.data with interfaces := some newIfs } }
        | none => n
      | none => n
    else n

/-- Section 5 of `handleCommand`: INTERFACE CONFIG (`(config-if)#`). -/
def interfaceConfigStep (nodes : List NetworkNode) (edges : List Edge)
    (s : InterpSession) (cmd : JStr) (newHistory : List JStr) : StepResult :=
  let st := s.state
  if matchCmd cmd (jstr "shutdown") = true ∨ cmd = jstr "shut" then
    finishStep (updateInt nodes st.nodeId s.contextInt fun c => { c with shutdown := true })
      st newHistory st.mode st.hostname s.contextInt s.contextVlan s.contextLine
      (jstr "%LINK-5-CHANGED: Interface " ++ s.contextInt
        ++ jstr ", changed state to administratively down")
  else if matchCmd cmd (jstr "no shutdown") = true ∨ cmd = jstr "no shut" then
    finishStep (updateInt nodes st.nodeId s.contextInt fun c => { c with shutdown := false })
      st newHistory st.mode st.hostname s.contextInt s.contextVlan s.contextLine
      (jstr "%LINK-3-UPDOWN: Interface " ++ s.contextInt
        ++ jstr ", changed state to up")
  else if matchCmd cmd (jstr "switchport mode") = true then
    let mode := if jsIncludes cmd (jstr "trunk") then jstr "trunk" else jstr "access"
    finishStep
      (updateInt nodes st.nodeId s.contextInt fun c => { c with switchportMode := some mode })
      st newHistory st.mode st.hostname s.contextInt s.contextVlan s.contextLine []
  else if matchCmd cmd (jstr "switchport access vlan") = true then
    let popped := ((jsSplitOn (jstr " ") cmd).getLast?).getD []
    let arg := if popped = [] then jstr "1" else popped
    match jsParseInt arg with
    | some vid =>
      let nodes1 :=
        updateInt nodes st.nodeId s.contextInt fun c => { c with accessVlan := some vid }
      let nodeEdges := getSortedEdges edges (st.nodeId.getD [])
      let trailing := trailingDigits s.contextInt
      if trailing ≠ [] then
        let portIdx : Int :=
          (match jsParseInt trailing with
           | some v => v
           | none => 0) - 1
        let targetEdge := if portIdx < 0 then none else nodeEdges.get? portIdx.toNat
        match targetEdge with
        | some te =>
          let neighborId := if st.nodeId == some te.source then te.target else te.source
          let nodes2 :=
            nodes1.map fun n =>
              if n.id == neighborId ∧
                  (n.data.type = .PC ∨ n.data.type = .PRINTER ∨ n.data.type = .SERVER) then
                { n with data := { n.data with assignedVlan := some vid } }
              else n
          finishStep nodes2 st newHistory st.mode st.hostname s.contextInt
            s.contextVlan s.contextLine
            (jstr "[Sim]: Assigned neighbor device on " ++ s.contextInt
              ++ jstr " to VLAN " ++ intToJStr vid)
        | none =>
          finishStep nodes1 st newHistory st.mode st.hostname s.contextInt
            s.contextVlan s.contextLine []
      else
        finishStep nodes1 st newHistory st.mode st.hostname s.contextInt
          s.contextVlan s.contextLine []
    | none =>
      finishStep nodes st newHistory st.mode st.hostname s.contextInt
        s.contextVlan s.contextLine []
  else if matchCmd cmd (jstr "switchport trunk allowed vlan") = true then
    let vlanStr := jsTrim ((jsSplitOn (jstr "vlan") cmd).getD 1 [])
    if vlanStr ≠ [] then
      finishStep
        (updateInt nodes st.nodeId s.contextInt fun c =>
          { c with trunkAllowedVlans := some vlanStr })
        st newHistory st.mode st.hostname s.contextInt s.contextVlan s.contextLine []
    else
      finishStep nodes st newHistory st.mode st.hostname s.contextInt
        s.contextVlan s.contextLine []
  else if matchCmd cmd (jstr "ip address") = true then
    let parts := jsSplitOn (jstr " ") cmd
    if 4 ≤ parts.length then
      finishStep
        (updateInt nodes st.nodeId s.contextInt fun c =>
          { c with ip := some (parts.getD 2 []), mask := some (parts.getD 3 []) })
        st newHistory st.mode st.hostname s.contextInt s.contextVlan s.contextLine []
    else
      finishStep nodes st newHistory st.mode st.hostname s.contextInt
        s.contextVlan s.contextLine (jstr "% Incomplete command.")
  else if cmd ≠ jstr "exit" then
    finishStep nodes st newHistory st.mode st.hostname s.contextInt
      s.contextVlan s.contextLine (jstr "% Invalid input detected at marker.")
  else
    finishStep nodes st newHistory st.mode st.hostname s.contextInt
      s.contextVlan s.contextLine []

/-- Section 6 of `handleCommand`: VLAN CONFIG (`(config-vlan)#`). -/
def vlanConfigStep (nodes : List NetworkNode) (s : InterpSession)
    (cmd : JStr) (tokens : List JStr) (firstToken : JStr)
    (newHistory : List JStr) : StepResult :=
  let st := s.state
  if matchCmd cmd (jstr "name") = true then
    let name := tokens.getD 1 []
    if name ≠ [] then
      finishStep
        (nodes.map fun n =>
          if st.nodeId == some n.id then
            match n.data.vlanDb with
            | some db =>
              { n with data :=
                  { n.data with vlanDb := some (vlanDbSet db s.contextVlan name) } }
            | none => n
          else n)
        st newHistory st.mode st.hostname s.contextInt s.contextVlan
        s.contextLine []
    else
      finishStep nodes st newHistory st.mode st.hostname s.contextInt
        s.contextVlan s.contextLine []
  else if firstToken = jstr "vlan" ∨ (jsParseInt firstToken).isSome = true then
    finishStep nodes st newHistory st.mode st.hostname s.contextInt
      s.contextVlan s.contextLine
      (jstr "% Invalid input. Type \"exit\" to return to global config mode first.")
  else if cmd ≠ jstr "exit" then
    finishStep nodes st newHistory st.mode st.hostname s.contextInt
      s.contextVlan s.contextLine (jstr "% Invalid input detected at marker.")
  else
    finishStep nodes st newHistory st.mode st.hostname s.contextInt
      s.contextVlan s.contextLine []

/-- `handleCommand`: one command line processed against the current session.
The raw input is appended to the history (falsy lines filtered out) unless a
branch returns early; `exit` from user exec closes the session; `reload`
starts the boot delay. -/
def handleCommand (nodes : List NetworkNode) (edges : List Edge)
    (s : InterpSession) (input : JStr) : StepResult :=
  let st := s.state
  let cmdRaw := input
  let cmd := jsTrim input
  let tokens := jsSplitWs cmd
  let firstToken := (tokens.getD 0 []).map Char.toLower
  let newHistory := (st.history ++ [cmdRaw]).filter fun c => c ≠ []
  if cmd = [] then earlyStep s nodes
  else if cmd = jstr "exit" then
    if st.mode = jstr "(config-line)#" then
      finishStep nodes st newHistory (jstr "(config)#") st.hostname s.contextInt
        s.contextVlan [] []
    else if st.mode = jstr "(config-if)#" then
      finishStep nodes st newHistory (jstr "(config)#") st.hostname []
        s.contextVlan s.contextLine []
    else if st.mode = jstr "(config-vlan)#" then
      finishStep nodes st newHistory (jstr "(config)#") st.hostname s.contextInt
        0 s.contextLine []
    else if st.mode = jstr "(config)#" then
      finishStep nodes st newHistory (jstr "#") st.hostname s.contextInt
        s.contextVlan s.contextLine []
    else if st.mode = jstr "#" then
      finishStep nodes st newHistory (jstr ">") st.hostname s.contextInt
        s.contextVlan s.contextLine []
    else
      { session := s, nodes := nodes, response := [], closed := true,
        booting := false, aiHintTriggered := false }
  else if cmd = jstr "end" then
    finishStep nodes st newHistory (jstr "#") st.hostname [] 0 [] []
  else if cmd = jstr "?" ∨ cmd = jstr "help" then
    finishStep nodes st newHistory st.mode st.hostname s.contextInt
      s.contextVlan s.contextLine (getHelp st.mode)
  else if cmd = jstr "clear" ∨ cmd = jstr "cls" then earlyStep s nodes
  else if firstToken = jstr "do" then
    finishStep nodes st newHistory st.mode st.hostname s.contextInt
      s.contextVlan s.contextLine (doResponse nodes edges st cmd)
  else if st.mode = jstr ">" then userExecStep nodes edges s cmd tokens newHistory
  else if st.mode = jstr "#" then privExecStep nodes edges s cmd firstToken newHistory
  else if st.mode = jstr "(config)#" then
    globalConfigStep nodes s cmd tokens firstToken newHistory
  else if st.mode = jstr "(config-if)#" then
    interfaceConfigStep nodes edges s cmd newHistory
  else if st.mode = jstr "(config-vlan)#" then
    vlanConfigStep nodes s cmd tokens firstToken newHistory
  else
    finishStep nodes st newHistory st.mode st.hostname s.contextInt
      s.contextVlan s.contextLine []

/-- Arrow-Up recall from `handleKeyDown`: given the history, the current
recall index (`-1` = not recalling) and the current input, produce the new
index and the input text shown. -/
def recallUp (history : List JStr) (historyIdx : Int) (curInput : JStr) :
    Int × JStr :=
  if 0 < history.length then
    let newIdx : Int :=
      if historyIdx = -1 then 0 else min (historyIdx + 1) ((history.length : Int) - 1)
    (newIdx, history.getD (history.length - 1 - newIdx.toNat) [])
  else (historyIdx, curInput)

/-- Arrow-Down recall from `handleKeyDown`. -/
def recallDown (history : List JStr) (historyIdx : Int) : Int × JStr :=
  if 0 < historyIdx then
    (historyIdx - 1, history.getD (history.length - 1 - (historyIdx - 1).toNat) [])
  else (-1, [])

/-!
## Specification-side predicate and concrete fixtures
-/

/-- The spec's reading of the command-matching rule, stated over the same
tokenisation `matchCmd` performs: at every canonical token position a typed
token exists (is non-empty) and the canonical token starts with it
(case-insensitively).  Nothing is required of extra typed tokens. -/
def tokenPrefixSpec (inputStr target : JStr) : Prop :=
  ∀ k, k < (jsSplitWs (target.map Char.toLower)).length →
    (jsSplitWs ((jsTrim inputStr).map Char.toLower)).getD k [] ≠ [] ∧
    List.isPrefixOf ((jsSplitWs ((jsTrim inputStr).map Char.toLower)).getD k [])
      ((jsSplitWs (target.map Char.toLower)).getD k []) = true

/-- Fixture: an L2 switch with no configuration. -/
def fxSwitch : NetworkNode :=
  ⟨jstr "sw1", { label := jstr "Core", type := .SWITCH_L2, status := jstr "up" }⟩

/-- Fixture: a second L2 switch. -/
def fxSwitch2 : NetworkNode :=
  ⟨jstr "sw2", { label := jstr "Dist", type := .SWITCH_L2, status := jstr "up" }⟩

/-- Fixture: a PC with no configuration. -/
def fxPC : NetworkNode :=
  ⟨jstr "pc1", { label := jstr "PC", type := .PC, status := jstr "up" }⟩

/-- Fixture: the first switch with its first interface already ensured. -/
def fxSwitchIf : NetworkNode :=
  ⟨jstr "sw1",
   { label := jstr "Core", type := .SWITCH_L2, status := jstr "up",
     interfaces := some [(jstr "GigabitEthernet0/1",
       defaultInterfaceConfig (jstr "GigabitEthernet0/1"))] }⟩

/-- Fixture: the link between the switch and the PC. -/
def fxEdgeSwPc : Edge := ⟨jstr "e1", jstr "sw1", jstr "pc1"⟩

/-- Fixture: the link between the two switches. -/
def fxEdgeSwSw : Edge := ⟨jstr "e1", jstr "sw1", jstr "sw2"⟩

/-- Fixture: a session bound to `sw1` in the given mode. -/
def fxSession (mode : String) : InterpSession :=
  { state := { nodeId := some (jstr "sw1"), history := [], hostname := jstr "Switch",
               mode := jstr mode },
    contextInt := [], contextVlan := 0, contextLine := [] }

/-- Fixture: a session bound to `pc1` in global config mode. -/
def fxSessionPC : InterpSession :=
  { state := { nodeId := some (jstr "pc1"), history := [], hostname := jstr "PC",
               mode := jstr "(config)#" },
    contextInt := [], contextVlan := 0, contextLine := [] }

/-- Fixture: a session bound to `sw1` in interface config mode on `Gi0/1`. -/
def fxSessionIf : InterpSession :=
  { state := { nodeId := some (jstr "sw1"), history := [], hostname := jstr "Switch",
               mode := jstr "(config-if)#" },
    contextInt := jstr "GigabitEthernet0/1", contextVlan := 0, contextLine := [] }

/-- Fixture: a user-exec session with one history entry. -/
def fxSessionUser : InterpSession :=
  { state := { nodeId := some (jstr "sw1"), history := [jstr "enable"],
               hostname := jstr "Switch", mode := jstr ">" },
    contextInt := [], contextVlan := 0, contextLine := [] }

/-- Fixture (spec §8 scenario): router A. -/
def fxRouterA : NetworkNode :=
  ⟨jstr "A", { label := jstr "A", type := .ROUTER, status := jstr "up" }⟩

/-- Fixture (spec §8 scenario): switch B. -/
def fxSwB : NetworkNode :=
  ⟨jstr "B", { label := jstr "B", type := .SWITCH_L2, status := jstr "up" }⟩

/-- Fixture (spec §8 scenario): PC C at 192.168.1.10. -/
def fxPcC : NetworkNode :=
  ⟨jstr "C", { label := jstr "C", type := .PC, status := jstr "up",
               ip := some (jstr "192.168.1.10") }⟩

/-- Fixture (spec §8 scenario): PC D at 192.168.1.11. -/
def fxPcD : NetworkNode :=
  ⟨jstr "D", { label := jstr "D", type := .PC, status := jstr "up",
               ip := some (jstr "192.168.1.11") }⟩

/-- Fixture: host H at 10.0.0.5. -/
def fxHostH : NetworkNode :=
  ⟨jstr "H", { label := jstr "H", type := .PC, status := jstr "up",
               ip := some (jstr "10.0.0.5") }⟩

/-- Fixture: host I at 10.0.1.5 (a different /24 subnet). -/
def fxHostI : NetworkNode :=
  ⟨jstr "I", { label := jstr "I", type := .PC, status := jstr "up",
               ip := some (jstr "10.0.1.5") }⟩

/-- Fixture: L2 switch G between H and I. -/
def fxSwG : NetworkNode :=
  ⟨jstr "G", { label := jstr "G", type := .SWITCH_L2, status := jstr "up" }⟩

/-- Fixture: the same switch G, powered down. -/
def fxSwGDown : NetworkNode :=
  ⟨jstr "G", { label := jstr "G", type := .SWITCH_L2, status := jstr "down" }⟩

/-- Fixture: the H—G—I chain. -/
def fxEdgesHGI : List Edge :=
  [⟨jstr "e1", jstr "H", jstr "G"⟩, ⟨jstr "e2", jstr "G", jstr "I"⟩]

/-- Fixture: a device with no IP address. -/
def fxNoIp : NetworkNode :=
  ⟨jstr "X", { label := jstr "PC-X", type := .PC, status := jstr "up" }⟩

/-- Fixture: `fxSwitchIf` after `switchport access vlan -3` on `Gi0/1`. -/
def fxSwitchIfNeg3 : NetworkNode :=
  ⟨jstr "sw1",
   { label := jstr "Core", type := .SWITCH_L2, status := jstr "up",
     interfaces := some [(jstr "GigabitEthernet0/1",
       { defaultInterfaceConfig (jstr "GigabitEthernet0/1") with
           accessVlan := some (-3) })] }⟩

/-- Fixture: `fxPC` tagged with display VLAN `-3`. -/
def fxPCNeg3 : NetworkNode :=
  ⟨jstr "pc1",
   { label := jstr "PC", type := .PC, status := jstr "up",
     assignedVlan := some (-3) }⟩

/-!
## Infrastructure lemmas
-/

/-- `Char.ofNat` on a scalar value below the surrogate range keeps its code. -/
theorem char_toNat_ofNat_of_lt {n : Nat} (h : n < 55296) : (Char.ofNat n).toNat = n := by
  have hv : n.isValidChar := Or.inl h
  rw [Char.ofNat, dif_pos hv]
  rfl

/-- Characters with different codes differ. -/
theorem char_ne_of_toNat_ne {a b : Char} (h : a.toNat ≠ b.toNat) : a ≠ b := by
  intro he
  exact h (by rw [he])

/-- Lowercasing never creates or destroys whitespace, so tokenisation and
lowercasing commute. -/
theorem isWhitespace_toLower (c : Char) : (Char.toLower c).isWhitespace = c.isWhitespace := by
  have hsp : (' ' : Char).toNat = 32 := by decide
  have hht : ('\t' : Char).toNat = 9 := by decide
  have hcr : ('\r' : Char).toNat = 13 := by decide
  have hlf : ('\n' : Char).toNat = 10 := by decide
  by_cases h : 65 ≤ c.toNat ∧ c.toNat ≤ 90
  · have hlow : Char.toLower c = Char.ofNat (c.toNat + 32) := by
      unfold Char.toLower
      exact if_pos ⟨h.1, h.2⟩
    have h1 : (Char.ofNat (c.toNat + 32)).toNat = c.toNat + 32 :=
      char_toNat_ofNat_of_lt (by omega)
    have hws1 : c.isWhitespace = false := by
      simp only [Char.isWhitespace, Bool.or_eq_false_iff, decide_eq_false_iff_not]
      refine ⟨⟨⟨?_, ?_⟩, ?_⟩, ?_⟩
      · exact char_ne_of_toNat_ne (by rw [hsp]; omega)
      · exact char_ne_of_toNat_ne (by rw [hht]; omega)
      · exact char_ne_of_toNat_ne (by rw [hcr]; omega)
      · exact char_ne_of_toNat_ne (by rw [hlf]; omega)
    have hws2 : (Char.ofNat (c.toNat + 32)).isWhitespace = false := by
      simp only [Char.isWhitespace, Bool.or_eq_false_iff, decide_eq_false_iff_not]
      refine ⟨⟨⟨?_, ?_⟩, ?_⟩, ?_⟩
      · exact char_ne_of_toNat_ne (by rw [h1, hsp]; omega)
      · exact char_ne_of_toNat_ne (by rw [h1, hht]; omega)
      · exact char_ne_of_toNat_ne (by rw [h1, hcr]; omega)
      · exact char_ne_of_toNat_ne (by rw [h1, hlf]; omega)
    rw [hlow, hws1, hws2]
  · have hlow : Char.toLower c = c := by
      unfold Char.toLower
      exact if_neg h
    rw [hlow]

/-- Splitting a whitespace-free string yields the single piece. -/
theorem jsSplitWsGo_all_nonws (l : List Char) (cur : JStr) (b : Bool)
    (h : ∀ c ∈ l, c.isWhitespace = false) :
    jsSplitWsGo l cur b = [cur.reverse ++ l] := by
  induction l generalizing cur b with
  | nil => simp [jsSplitWsGo]
  | cons c cs ih =>
    have hc : c.isWhitespace = false := h c (List.mem_cons_self c cs)
    rw [jsSplitWsGo, hc]
    simp only [Bool.false_eq_true, if_false]
    rw [ih (c :: cur) false (fun x hx => h x (List.mem_cons_of_mem c hx))]
    simp

/-- A whitespace-free word followed by a space is emitted as one piece. -/
theorem jsSplitWsGo_word_space (w rest : List Char) (cur : JStr)
    (hw : ∀ c ∈ w, c.isWhitespace = false) :
    jsSplitWsGo (w ++ ' ' :: rest) cur false =
      (cur.reverse ++ w) :: jsSplitWsGo rest [] true := by
  induction w generalizing cur with
  | nil =>
    rw [List.nil_append, jsSplitWsGo]
    simp
  | cons c cs ih =>
    have hc : c.isWhitespace = false := hw c (List.mem_cons_self c cs)
    rw [List.cons_append, jsSplitWsGo, hc]
    simp only [Bool.false_eq_true, if_false]
    rw [ih (c :: cur) (fun x hx => hw x (List.mem_cons_of_mem c hx))]
    simp

/-- After a break, the run flag is irrelevant when the rest starts with a
non-whitespace character (or is empty). -/
theorem jsSplitWsGo_true_eq_false (rest : List Char)
    (h : rest = [] ∨ ∃ d ds, rest = d :: ds ∧ d.isWhitespace = false) :
    jsSplitWsGo rest [] true = jsSplitWsGo rest [] false := by
  rcases h with rfl | ⟨d, ds, rfl, hd⟩
  · rfl
  · rw [jsSplitWsGo, jsSplitWsGo, hd]
    simp

/-- `jsSplitWs` of a whitespace-free string. -/
theorem jsSplitWs_all_nonws (l : List Char) (h : ∀ c ∈ l, c.isWhitespace = false) :
    jsSplitWs l = [l] := by
  rw [jsSplitWs, jsSplitWsGo_all_nonws l [] false h]
  rfl

/-- `jsSplitWs` peels one space-terminated word off the front. -/
theorem jsSplitWs_word_append (w rest : List Char)
    (hw : ∀ c ∈ w, c.isWhitespace = false)
    (hrest : rest = [] ∨ ∃ d ds, rest = d :: ds ∧ d.isWhitespace = false) :
    jsSplitWs (w ++ ' ' :: rest) = w :: jsSplitWs rest := by
  rw [jsSplitWs, jsSplitWsGo_word_space w rest [] hw,
    jsSplitWsGo_true_eq_false rest hrest]
  rfl

/-- A list with a strictly longer left part cannot equal a shorter one. -/
theorem append_ne_of_length_lt {l t r : List Char} (h : r.length < l.length + t.length) :
    l ++ t ≠ r := by
  intro he
  have := congrArg List.length he
  simp only [List.length_append] at this
  omega

/-- The token loop succeeds iff at every canonical position the typed token
exists (is non-empty) and is a prefix of the canonical token. -/
theorem matchParts_eq_true_iff (is ts : List JStr) :
    matchParts is ts = true ↔
      ∀ k, k < ts.length →
        is.getD k [] ≠ [] ∧ (is.getD k []).isPrefixOf (ts.getD k []) = true := by
  induction ts generalizing is with
  | nil => simp [matchParts]
  | cons t ts ih =>
    cases is with
    | nil =>
      simp only [matchParts]
      constructor
      · intro h
        exact absurd h (by simp)
      · intro h
        have := h 0 (by simp)
        simp at this
    | cons i is =>
      rw [matchParts]
      simp only [Bool.and_eq_true, decide_eq_true_eq, ne_eq]
      constructor
      · rintro ⟨⟨hne, hpre⟩, hrest⟩
        intro k hk
        cases k with
        | zero => exact ⟨hne, hpre⟩
        | succ k =>
          have := (ih is).mp hrest k (by simpa using hk)
          simpa using this
      · intro h
        refine ⟨⟨(h 0 (by simp)).1, (h 0 (by simp)).2⟩, ?_⟩
        rw [ih is]
        intro k hk
        have := h (k + 1) (by simpa using hk)
        simpa using this

/-- `find?` commutes with a map that does not change the tested field. -/
theorem find?_map_id_preserving (p : NetworkNode → Bool) (f : NetworkNode → NetworkNode)
    (hf : ∀ x, p (f x) = p x) (l : List NetworkNode) :
    (l.map f).find? p = (l.find? p).map f := by
  induction l with
  | nil => rfl
  | cons x xs ih =>
    rw [List.map_cons, List.find?_cons, List.find?_cons, hf x]
    cases hp : p x
    · exact ih
    · rfl

/-- `find?` returns the first element of a decomposition whose prefix all
fails the predicate. -/
theorem find?_append_first (pre post : List JStr) (b : JStr) (pred : JStr → Bool)
    (hpre : ∀ x ∈ pre, pred x = false) (hb : pred b = true) :
    (pre ++ b :: post).find? pred = some b := by
  induction pre with
  | nil => simp [List.find?_cons, hb]
  | cons x xs ih =>
    rw [List.cons_append, List.find?_cons, hpre x (List.mem_cons_self x xs)]
    exact ih (fun y hy => hpre y (List.mem_cons_of_mem x hy))

/-- `vlanDbSet` stores the assigned value under the assigned key. -/
theorem lookup_vlanDbSet_self (db : List (Int × JStr)) (k : Int) (v : JStr) :
    (vlanDbSet db k v).lookup k = some v := by
  induction db with
  | nil => simp [vlanDbSet, List.lookup]
  | cons p rest ih =>
    rw [vlanDbSet]
    by_cases h1 : p.1 = k
    · simp [h1, List.lookup]
    · rw [if_neg h1]
      have hne : (k == p.1) = false := by simpa using fun he => h1 he.symm
      by_cases h2 : 0 ≤ k ∧ (p.1 < 0 ∨ k < p.1) ∧ ((p :: rest).lookup k).isNone
      · rw [if_pos h2]
        simp [List.lookup]
      · rw [if_neg h2]
        simp only [List.lookup, hne]
        exact ih

/-- `vlanDbSet` leaves every other key alone. -/
theorem lookup_vlanDbSet_ne (db : List (Int × JStr)) (k k' : Int) (v : JStr)
    (h : k' ≠ k) : (vlanDbSet db k v).lookup k' = db.lookup k' := by
  have hkk : (k' == k) = false := by simpa using h
  induction db with
  | nil => simp [vlanDbSet, List.lookup, hkk]
  | cons p rest ih =>
    rw [vlanDbSet]
    by_cases h1 : p.1 = k
    · subst h1
      simp only [if_pos rfl, List.lookup, hkk]
    · rw [if_neg h1]
      by_cases h2 : 0 ≤ k ∧ (p.1 < 0 ∨ k < p.1) ∧ ((p :: rest).lookup k).isNone
      · rw [if_pos h2]
        simp only [List.lookup, hkk]
      · rw [if_neg h2]
        simp only [List.lookup]
        cases hpk : (k' == p.1)
        · exact ih
        · rfl

/-- Appending a fresh key to an association list makes it found. -/
theorem lookup_append_singleton (m : List (JStr × InterfaceConfig)) (k : JStr)
    (v : InterfaceConfig) (h : m.lookup k = none) :
    (m ++ [(k, v)]).lookup k = some v := by
  induction m with
  | nil => simp [List.lookup]
  | cons p rest ih =>
    rw [List.cons_append, List.lookup]
    rw [List.lookup] at h
    cases hpk : (k == p.1)
    · rw [hpk] at h
      exact ih h
    · rw [hpk] at h
      exact absurd h (by simp)

/-- Appending a fresh key does not disturb other keys. -/
theorem lookup_append_singleton_ne (m : List (JStr × InterfaceConfig)) (k k' : JStr)
    (v : InterfaceConfig) (h : k' ≠ k) :
    (m ++ [(k, v)]).lookup k' = m.lookup k' := by
  have hkk : (k' == k) = false := by simpa using h
  induction m with
  | nil => simp [List.lookup, hkk]
  | cons p rest ih =>
    rw [List.cons_append, List.lookup, List.lookup]
    cases hpk : (k' == p.1)
    · exact ih
    · rfl

/-- A string with non-whitespace first and last characters trims to itself. -/
theorem jsTrim_eq_self (l : JStr)
    (h1 : ∀ c, l.head? = some c → c.isWhitespace = false)
    (h2 : ∀ c, l.getLast? = some c → c.isWhitespace = false) :
    jsTrim l = l := by
  cases l with
  | nil => rfl
  | cons c cs =>
    have hc : c.isWhitespace = false := h1 c rfl
    unfold jsTrim
    rw [List.dropWhile_cons, hc]
    simp only [Bool.false_eq_true, if_false]
    rcases hrev : (c :: cs).reverse with _ | ⟨d, ds⟩
    · exact absurd (congrArg List.length hrev) (by simp)
    · have hd : d.isWhitespace = false := by
        apply h2
        rw [← List.head?_reverse, hrev]
        rfl
      rw [List.dropWhile_cons, hd]
      simp only [Bool.false_eq_true, if_false]
      rw [← hrev, List.reverse_reverse]

/-- A command line which starts with a non-whitespace character and ends in
a whitespace-free token trims to itself. -/
theorem jsTrim_cons_append_token (c : Char) (m tok : List Char)
    (hc : c.isWhitespace = false) (htok : tok ≠ [])
    (hws : ∀ x ∈ tok, x.isWhitespace = false) :
    jsTrim (c :: m ++ tok) = c :: m ++ tok := by
  apply jsTrim_eq_self
  · intro d hd
    rw [show c :: m ++ tok = c :: (m ++ tok) from rfl] at hd
    rw [List.head?_cons] at hd
    injection hd with hd
    rw [← hd]
    exact hc
  · intro d hd
    rw [show c :: m ++ tok = (c :: m) ++ tok from rfl, List.getLast?_append] at hd
    obtain ⟨e, he⟩ := Option.isSome_iff_exists.mp (List.getLast?_isSome.mpr htok)
    rw [he] at hd
    simp only [Option.or_some] at hd
    injection hd with hd
    rw [← hd]
    exact hws e (List.mem_of_getLast?_eq_some he)

/-- `split(' ')` of a space-free string is the single piece. -/
theorem jsSplitOnGo_space_nonmem (l : List Char) (cur : List Char) (fuel : Nat)
    (hm : ' ' ∉ l) (hf : l.length ≤ fuel) :
    jsSplitOnGo [' '] fuel l cur = [cur.reverse ++ l] := by
  induction l generalizing cur fuel with
  | nil => cases fuel <;> simp [jsSplitOnGo]
  | cons c cs ih =>
    obtain ⟨f, rfl⟩ : ∃ f, fuel = f + 1 :=
      ⟨fuel - 1, by simp only [List.length_cons] at hf; omega⟩
    rw [jsSplitOnGo]
    have hcne : (' ' == c) = false := by
      simpa using fun he => hm (by rw [he]; exact List.mem_cons_self c cs)
    have hip : List.isPrefixOf [' '] (c :: cs) = false := by
      simp [List.isPrefixOf, hcne]
    rw [if_neg (by intro hcond; rw [hip] at hcond; exact absurd hcond.2 (by simp))]
    rw [ih (c :: cur) f (fun hx => hm (List.mem_cons_of_mem c hx))
        (by simp only [List.length_cons] at hf; omega)]
    simp

/-- `split(' ')` peels one space-free word off the front. -/
theorem jsSplitOnGo_space_word (w rest cur : List Char) (fuel : Nat)
    (hw : ' ' ∉ w) (hf : w.length + rest.length + 1 ≤ fuel) :
    jsSplitOnGo [' '] fuel (w ++ ' ' :: rest) cur =
      (cur.reverse ++ w) :: jsSplitOnGo [' '] (fuel - w.length - 1) rest [] := by
  induction w generalizing cur fuel with
  | nil =>
    obtain ⟨f, rfl⟩ : ∃ f, fuel = f + 1 := ⟨fuel - 1, by omega⟩
    rw [List.nil_append, jsSplitOnGo]
    rw [if_pos ⟨by simp, by simp [List.isPrefixOf]⟩]
    simp [jsSplitOnGo]
  | cons c cs ih =>
    obtain ⟨f, rfl⟩ : ∃ f, fuel = f + 1 :=
      ⟨fuel - 1, by simp only [List.length_cons] at hf; omega⟩
    rw [List.cons_append, jsSplitOnGo]
    have hcne : (' ' == c) = false := by
      simpa using fun he => hw (by rw [he]; exact List.mem_cons_self c cs)
    have hip : List.isPrefixOf [' '] (c :: (cs ++ ' ' :: rest)) = false := by
      simp [List.isPrefixOf, hcne]
    rw [if_neg (by intro hcond; rw [hip] at hcond; exact absurd hcond.2 (by simp))]
    rw [ih (c :: cur) f (fun hx => hw (List.mem_cons_of_mem c hx))
        (by simp only [List.length_cons] at hf; omega)]
    have harith : f + 1 - (c :: cs).length - 1 = f - cs.length - 1 := by
      simp only [List.length_cons]
      omega
    rw [harith]
    simp [List.append_assoc]

/-- `matchParts` accepts once the canonical tokens are exhausted. -/
theorem matchParts_nil_right (is : List JStr) : matchParts is [] = true := by
  cases is <;> rfl

/-- `matchParts` rejects as soon as one typed token is not a prefix. -/
theorem matchParts_false_head (i t : JStr) (is ts : List JStr)
    (h : i.isPrefixOf t = false) : matchParts (i :: is) (t :: ts) = false := by
  rw [matchParts, h]
  simp

/-- `matchParts` steps over a successful position. -/
theorem matchParts_cons_true (i t : JStr) (is ts : List JStr)
    (h1 : i ≠ []) (h2 : i.isPrefixOf t = true) :
    matchParts (i :: is) (t :: ts) = matchParts is ts := by
  rw [matchParts, h2]
  simp [h1]

/-- Reduce a `matchCmd` call once the tokenised input is known. -/
theorem matchCmd_of_inputParts (inputStr target : JStr) (parts : List JStr)
    (hne : inputStr ≠ [])
    (hp : jsSplitWs ((jsTrim inputStr).map Char.toLower) = parts) :
    matchCmd inputStr target = matchParts parts (jsSplitWs (target.map Char.toLower)) := by
  unfold matchCmd
  rw [if_neg hne, hp]

/-- Lowercasing keeps a token non-empty. -/
theorem tokLower_ne_nil (tok : JStr) (htok : tok ≠ []) : tok.map Char.toLower ≠ [] := by
  simpa using htok

/-- Lowercasing keeps a token whitespace-free. -/
theorem tokLower_nonws (tok : JStr) (hws : ∀ c ∈ tok, c.isWhitespace = false) :
    ∀ c ∈ tok.map Char.toLower, c.isWhitespace = false := by
  intro c hc
  obtain ⟨x, hx, rfl⟩ := List.mem_map.mp hc
  rw [isWhitespace_toLower]
  exact hws x hx

/-- A whitespace-free list is either empty or starts with a non-whitespace
character. -/
theorem head_cons_of_nonws (tok : JStr)
    (hws : ∀ c ∈ tok, c.isWhitespace = false) :
    tok = [] ∨ ∃ d ds, tok = d :: ds ∧ d.isWhitespace = false := by
  cases tok with
  | nil => exact Or.inl rfl
  | cons d ds => exact Or.inr ⟨d, ds, rfl, hws d (List.mem_cons_self d ds)⟩

/-- `vlan <tok>` trims to itself. -/
theorem trim_vlan_tok (tok : JStr) (htok : tok ≠ [])
    (hws : ∀ c ∈ tok, c.isWhitespace = false) :
    jsTrim (jstr "vlan " ++ tok) = jstr "vlan " ++ tok := by
  have h0 : jstr "vlan " = 'v' :: jstr "lan " := by decide
  rw [h0, List.cons_append]
  exact jsTrim_cons_append_token 'v' (jstr "lan ") tok (by decide) htok hws

/-- `vlan <tok>` tokenises into the keyword and the argument. -/
theorem splitWs_vlan_tok (tok : JStr) (htok : tok ≠ [])
    (hws : ∀ c ∈ tok, c.isWhitespace = false) :
    jsSplitWs (jstr "vlan " ++ tok) = [jstr "vlan", tok] := by
  have h0 : jstr "vlan " = jstr "vlan" ++ [' '] := by decide
  rw [h0, List.append_assoc, List.singleton_append]
  rw [jsSplitWs_word_append (jstr "vlan") tok (by decide)
      (head_cons_of_nonws tok hws)]
  rw [jsSplitWs_all_nonws tok hws]

/-- The lowercased token list matchCmd computes for `vlan <tok>`. -/
theorem inputParts_vlan_tok (tok : JStr) (htok : tok ≠ [])
    (hws : ∀ c ∈ tok, c.isWhitespace = false) :
    jsSplitWs ((jsTrim (jstr "vlan " ++ tok)).map Char.toLower) =
      [jstr "vlan", tok.map Char.toLower] := by
  rw [trim_vlan_tok tok htok hws, List.map_append]
  have h0 : (jstr "vlan ").map Char.toLower = jstr "vlan " := by decide
  rw [h0]
  exact splitWs_vlan_tok (tok.map Char.toLower) (tokLower_ne_nil tok htok)
    (tokLower_nonws tok hws)

/-- `switchport access vlan <tok>` trims to itself. -/
theorem trim_sav_tok (tok : JStr) (htok : tok ≠ [])
    (hws : ∀ c ∈ tok, c.isWhitespace = false) :
    jsTrim (jstr "switchport access vlan " ++ tok) =
      jstr "switchport access vlan " ++ tok := by
  have h0 : jstr "switchport access vlan " = 's' :: jstr "witchport access vlan " := by
    decide
  rw [h0, List.cons_append]
  exact jsTrim_cons_append_token 's' (jstr "witchport access vlan ") tok (by decide)
    htok hws

/-- `switchport access vlan <tok>` tokenises into its four tokens. -/
theorem splitWs_sav_tok (tok : JStr) (htok : tok ≠ [])
    (hws : ∀ c ∈ tok, c.isWhitespace = false) :
    jsSplitWs (jstr "switchport access vlan " ++ tok) =
      [jstr "switchport", jstr "access", jstr "vlan", tok] := by
  have h0 : jstr "switchport access vlan " ++ tok =
      jstr "switchport" ++ ' ' :: (jstr "access" ++ ' ' :: (jstr "vlan" ++ ' ' :: tok)) := by
    have h1 : jstr "switchport access vlan " =
        jstr "switchport" ++ ' ' :: (jstr "access" ++ ' ' :: (jstr "vlan" ++ [' '])) := by
      decide
    rw [h1]
    simp [List.append_assoc]
  rw [h0]
  rw [jsSplitWs_word_append (jstr "switchport") _ (by decide)
      (Or.inr ⟨'a', jstr "ccess" ++ ' ' :: (jstr "vlan" ++ ' ' :: tok),
        by rw [show jstr "access" = 'a' :: jstr "ccess" from by decide, List.cons_append],
        by decide⟩)]
  rw [jsSplitWs_word_append (jstr "access") _ (by decide)
      (Or.inr ⟨'v', jstr "lan" ++ ' ' :: tok,
        by rw [show jstr "vlan" = 'v' :: jstr "lan" from by decide, List.cons_append],
        by decide⟩)]
  rw [jsSplitWs_word_append (jstr "vlan") tok (by decide)
      (head_cons_of_nonws tok hws)]
  rw [jsSplitWs_all_nonws tok hws]

/-- The lowercased token list matchCmd computes for
`switchport access vlan <tok>`. -/
theorem inputParts_sav_tok (tok : JStr) (htok : tok ≠ [])
    (hws : ∀ c ∈ tok, c.isWhitespace = false) :
    jsSplitWs ((jsTrim (jstr "switchport access vlan " ++ tok)).map Char.toLower) =
      [jstr "switchport", jstr "access", jstr "vlan", tok.map Char.toLower] := by
  rw [trim_sav_tok tok htok hws, List.map_append]
  have h0 : (jstr "switchport access vlan ").map Char.toLower =
      jstr "switchport access vlan " := by decide
  rw [h0]
  exact splitWs_sav_tok (tok.map Char.toLower) (tokLower_ne_nil tok htok)
    (tokLower_nonws tok hws)

/-- `cmd.split(' ')` of `switchport access vlan <tok>`. -/
theorem splitOn_space_sav_tok (tok : JStr) (htok : tok ≠ [])
    (hws : ∀ c ∈ tok, c.isWhitespace = false) :
    jsSplitOn (jstr " ") (jstr "switchport access vlan " ++ tok) =
      [jstr "switchport", jstr "access", jstr "vlan", tok] := by
  have hsp : jstr " " = [' '] := by decide
  have hmemtok : ' ' ∉ tok := by
    intro hmem
    have := hws ' ' hmem
    simp at this
  have h0 : jstr "switchport access vlan " ++ tok =
      jstr "switchport" ++ ' ' :: (jstr "access" ++ ' ' :: (jstr "vlan" ++ ' ' :: tok)) := by
    have h1 : jstr "switchport access vlan " =
        jstr "switchport" ++ ' ' :: (jstr "access" ++ ' ' :: (jstr "vlan" ++ [' '])) := by
      decide
    rw [h1]
    simp [List.append_assoc]
  have l1 : (jstr "switchport").length = 10 := by decide
  have l2 : (jstr "access").length = 6 := by decide
  have l3 : (jstr "vlan").length = 4 := by decide
  rw [jsSplitOn, hsp, h0]
  rw [jsSplitOnGo_space_word (jstr "switchport") _ [] _ (by decide)
      (by simp only [List.length_append, List.length_cons, l1, l2, l3]; omega)]
  rw [jsSplitOnGo_space_word (jstr "access") _ [] _ (by decide)
      (by simp only [List.length_append, List.length_cons, l1, l2, l3]; omega)]
  rw [jsSplitOnGo_space_word (jstr "vlan") tok [] _ (by decide)
      (by simp only [List.length_append, List.length_cons, l1, l2, l3]; omega)]
  rw [jsSplitOnGo_space_nonmem tok [] _ hmemtok
      (by simp only [List.length_append, List.length_cons, l1, l2, l3]; omega)]
  simp

/-- Dispatch of `handleCommand` into the global-config section. -/
theorem handleCommand_dispatch_config (nodes : List NetworkNode) (edges : List Edge)
    (s : InterpSession) (input cmd : JStr) (tokens : List JStr)
    (hmode : s.state.mode = jstr "(config)#")
    (hcmd : jsTrim input = cmd)
    (htokens : jsSplitWs cmd = tokens)
    (hne : cmd ≠ [])
    (hnotexit : cmd ≠ jstr "exit") (hnotend : cmd ≠ jstr "end")
    (hnotq : cmd ≠ jstr "?") (hnothelp : cmd ≠ jstr "help")
    (hnotclear : cmd ≠ jstr "clear") (hnotcls : cmd ≠ jstr "cls")
    (hnotdo : (tokens.getD 0 []).map Char.toLower ≠ jstr "do") :
    handleCommand nodes edges s input =
      globalConfigStep nodes s cmd tokens ((tokens.getD 0 []).map Char.toLower)
        ((s.state.history ++ [input]).filter (fun c => c ≠ [])) := by
  simp only [handleCommand]
  rw [hcmd, htokens, hmode]
  rw [if_neg hne, if_neg hnotexit, if_neg hnotend,
    if_neg (not_or.mpr ⟨hnotq, hnothelp⟩), if_neg (not_or.mpr ⟨hnotclear, hnotcls⟩),
    if_neg hnotdo, if_neg (by decide), if_neg (by decide), if_pos rfl]

/-- Dispatch of `handleCommand` into the interface-config section. -/
theorem handleCommand_dispatch_config_if (nodes : List NetworkNode) (edges : List Edge)
    (s : InterpSession) (input cmd : JStr) (tokens : List JStr)
    (hmode : s.state.mode = jstr "(config-if)#")
    (hcmd : jsTrim input = cmd)
    (htokens : jsSplitWs cmd = tokens)
    (hne : cmd ≠ [])
    (hnotexit : cmd ≠ jstr "exit") (hnotend : cmd ≠ jstr "end")
    (hnotq : cmd ≠ jstr "?") (hnothelp : cmd ≠ jstr "help")
    (hnotclear : cmd ≠ jstr "clear") (hnotcls : cmd ≠ jstr "cls")
    (hnotdo : (tokens.getD 0 []).map Char.toLower ≠ jstr "do") :
    handleCommand nodes edges s input =
      interfaceConfigStep nodes edges s cmd
        ((s.state.history ++ [input]).filter (fun c => c ≠ [])) := by
  simp only [handleCommand]
  rw [hcmd, htokens, hmode]
  rw [if_neg hne, if_neg hnotexit, if_neg hnotend,
    if_neg (not_or.mpr ⟨hnotq, hnothelp⟩), if_neg (not_or.mpr ⟨hnotclear, hnotcls⟩),
    if_neg hnotdo, if_neg (by decide), if_neg (by decide), if_neg (by decide),
    if_pos rfl]

/-- The `.includes('SWITCH')` test holds exactly for the two switch kinds. -/
theorem jsIncludes_switch_iff (dt : DeviceType) :
    jsIncludes dt.str (jstr "SWITCH") = true ↔ (dt = .SWITCH_L2 ∨ dt = .SWITCH_L3) := by
  cases dt <;> decide

/-!
## Claims
-/

/-- C8 counterexample: the claim says every non-special ordered pair yields
level `'info'`; in the code the final branch omits the `level` field
entirely (`undefined`, here `none`), as the pair (Router, Router) shows —
its message is the default one, yet its level is absent, not `info`. -/
theorem C8_counterexample :
    (validateConnection .ROUTER .ROUTER).message = jstr "Connection established." ∧
    (validateConnection .ROUTER .ROUTER).level = none ∧
    (validateConnection .ROUTER .ROUTER).level ≠ some ConnLevel.info := by
  decide

/-- C8 (amended): `validateConnection` always returns `isValid = true`; the
pair (PC, PC) yields level `warning`, (Internet, PC) yields `error`,
(SwitchL2, Internet) yields `warning`, and every other ordered pair yields
the message `'Connection established.'` with no level field at all (the
caller defaults an absent level to `'info'`). -/
theorem C8_validateConnection_classification :
    (∀ a b : DeviceType, (validateConnection a b).isValid = true) ∧
    validateConnection .PC .PC =
      { isValid := true,
        message := jstr "PC connected directly to PC. Ensure IPs are in the same subnet.",
        level := some .warning } ∧
    validateConnection .INTERNET .PC =
      { isValid := true,
        message := jstr "DANGER: Direct Internet connection to PC! Please use a Firewall or Router.",
        level := some .error } ∧
    validateConnection .SWITCH_L2 .INTERNET =
      { isValid := true,
        message := jstr "L2 Switches cannot terminate ISP links directly without a Router/Gateway.",
        level := some .warning } ∧
    (∀ a b : DeviceType,
      ¬(a = .PC ∧ b = .PC) → ¬(a = .INTERNET ∧ b = .PC) →
      ¬(a = .SWITCH_L2 ∧ b = .INTERNET) →
      validateConnection a b =
        { isValid := true, message := jstr "Connection established.", level := none }) := by
  refine ⟨?_, by decide, by decide, by decide, ?_⟩
  · intro a b
    cases a <;> cases b <;> rfl
  · intro a b h1 h2 h3
    unfold validateConnection
    rw [if_neg h1, if_neg h2, if_neg h3]

/-- C8 witness: the amended classification applied to (Router, SwitchL2). -/
theorem C8_witness :
    validateConnection .ROUTER .SWITCH_L2 =
      { isValid := true, message := jstr "Connection established.", level := none } :=
  C8_validateConnection_classification.2.2.2.2 DeviceType.ROUTER DeviceType.SWITCH_L2
    (by decide) (by decide) (by decide)

/-- C1 counterexample: `sh` token-wise prefixes `show running-config`
(its single token is a prefix of the canonical token at position 0), so the
claim says the match succeeds with the missing second token treated as an
allowed abbreviation; `matchCmd` in fact rejects any input with fewer
tokens than the canonical command. -/
theorem C1_counterexample :
    List.isPrefixOf (jstr "sh") (jstr "show") = true ∧
    (jsSplitWs ((jsTrim (jstr "sh")).map Char.toLower)).length <
      (jsSplitWs ((jstr "show running-config").map Char.toLower)).length ∧
    matchCmd (jstr "sh") (jstr "show running-config") = false := by
  decide

/-- C1 (amended): `matchCmd` accepts exactly when the typed input is
non-empty and supplies, at every canonical token position, a non-empty
typed token of which the canonical token is a case-insensitive
prefix-extension; extra typed tokens beyond the canonical count are
accepted as trailing arguments, but fewer typed tokens than canonical
tokens always fail (the famous `sh run` works only because it has one
typed token per canonical token). -/
theorem C1_matchCmd_characterization (inputStr target : JStr) :
    matchCmd inputStr target = true ↔
      (inputStr ≠ [] ∧ tokenPrefixSpec inputStr target) := by
  unfold matchCmd
  by_cases hne : inputStr = []
  · rw [if_pos hne]
    simp [hne]
  · rw [if_neg hne]
    rw [matchParts_eq_true_iff]
    unfold tokenPrefixSpec
    simp [hne]

/-- C1 witness: the characterization applied to `conf t`. -/
theorem C1_witness :
    matchCmd (jstr "conf t") (jstr "configure terminal") = true ↔
      (jstr "conf t" ≠ [] ∧ tokenPrefixSpec (jstr "conf t") (jstr "configure terminal")) :=
  C1_matchCmd_characterization (jstr "conf t") (jstr "configure terminal")

/-- C7: `ensureInterface` is idempotent and lazy: an absent name is created
exactly once with the documented defaults (shutdown off, access mode,
access VLAN 1, all trunk VLANs allowed) without touching other names; a
present name leaves the node completely unchanged; and applying the
operation twice equals applying it once. -/
theorem C7_ensureInterface_idempotent (node : NetworkNode) (ifName : JStr) :
    ((node.data.interfaces.getD []).lookup ifName = none →
      ((ensureInterface node ifName).data.interfaces.getD []).lookup ifName
          = some (defaultInterfaceConfig ifName) ∧
      ∀ other, other ≠ ifName →
        ((ensureInterface node ifName).data.interfaces.getD []).lookup other
            = (node.data.interfaces.getD []).lookup other) ∧
    (∀ m, node.data.interfaces = some m → (m.lookup ifName).isSome = true →
      ensureInterface node ifName = node) ∧
    ensureInterface (ensureInterface node ifName) ifName = ensureInterface node ifName := by
  refine ⟨?_, ?_, ?_⟩
  · intro habs
    have hnotsome : ((node.data.interfaces.getD []).lookup ifName).isSome = false := by
      rw [habs]
      rfl
    constructor
    · unfold ensureInterface
      simp only [hnotsome, Bool.false_eq_true, if_false]
      exact lookup_append_singleton _ _ _ habs
    · intro other hother
      unfold ensureInterface
      simp only [hnotsome, Bool.false_eq_true, if_false]
      exact lookup_append_singleton_ne _ _ _ _ hother
  · intro m hm hsome
    unfold ensureInterface
    rw [hm]
    simp only [Option.getD_some, hsome, if_true]
    rw [← hm]
  · cases hsome : ((node.data.interfaces.getD []).lookup ifName).isSome with
    | true =>
      have h1 : ensureInterface node ifName =
          { node with data := { node.data with
              interfaces := some (node.data.interfaces.getD []) } } := by
        simp only [ensureInterface]
        rw [if_pos hsome]
      rw [h1]
      simp only [ensureInterface]
      simp only [Option.getD_some, hsome, if_true]
    | false =>
      have habs : (node.data.interfaces.getD []).lookup ifName = none :=
        Option.not_isSome_iff_eq_none.mp (by rw [hsome]; exact Bool.false_ne_true)
      have h1 : ensureInterface node ifName =
          { node with data := { node.data with
              interfaces := some ((node.data.interfaces.getD []) ++
                [(ifName, defaultInterfaceConfig ifName)]) } } := by
        simp only [ensureInterface]
        rw [if_neg (by rw [hsome]; exact Bool.false_ne_true)]
      rw [h1]
      simp only [ensureInterface]
      simp only [Option.getD_some]
      rw [if_pos (by rw [lookup_append_singleton _ _ _ habs]; rfl)]

/-- C7 witness: ensuring `GigabitEthernet0/1` on an unconfigured switch
creates the default record, and re-ensuring is a no-op. -/
theorem C7_witness :
    ((ensureInterface fxSwitch (jstr "GigabitEthernet0/1")).data.interfaces.getD
        []).lookup (jstr "GigabitEthernet0/1")
      = some (defaultInterfaceConfig (jstr "GigabitEthernet0/1")) ∧
    ensureInterface (ensureInterface fxSwitch (jstr "GigabitEthernet0/1"))
        (jstr "GigabitEthernet0/1")
      = ensureInterface fxSwitch (jstr "GigabitEthernet0/1") :=
  ⟨((C7_ensureInterface_idempotent fxSwitch (jstr "GigabitEthernet0/1")).1
      (by decide)).1,
   (C7_ensureInterface_idempotent fxSwitch (jstr "GigabitEthernet0/1")).2.2⟩

/-- C4: `findPath` validates the endpoints' management IPs purely
syntactically (four groups of 1–3 digits, no 0–255 range check — `999.1.1.1`
passes, a missing IP fails); an invalid source IP fails first, naming the
source device, then an invalid destination IP fails naming the destination,
both with empty path and zero hops.  The conclusions hold for every edge
list, so the checks precede (and are independent of) the physical
connectivity search. -/
theorem C4_ip_validation (nodes : List NetworkNode) (edges : List Edge)
    (sId tId : JStr) (sN tN : NetworkNode)
    (hs : nodes.find? (fun m => m.id == sId) = some sN)
    (ht : nodes.find? (fun m => m.id == tId) = some tN) :
    (isValidIP (some (jstr "999.1.1.1")) = true) ∧
    (isValidIP none = false) ∧
    (isValidIP sN.data.ip = false →
      findPath nodes edges sId tId =
        { success := false, path := [], hops := 0,
          message := jstr "Configuration Error: Source device (" ++ sN.data.label
            ++ jstr ") is missing a valid IP address." }) ∧
    (isValidIP sN.data.ip = true → isValidIP tN.data.ip = false →
      findPath nodes edges sId tId =
        { success := false, path := [], hops := 0,
          message := jstr "Configuration Error: Destination device (" ++ tN.data.label
            ++ jstr ") is missing a valid IP address." }) := by
  refine ⟨by decide, by decide, ?_, ?_⟩
  · intro hbad
    simp only [findPath, hs, ht]
    rw [if_pos (by rw [hbad])]
  · intro hgood hbad
    simp only [findPath, hs, ht]
    rw [if_neg (by rw [hgood]; simp)]
    rw [if_pos (by rw [hbad])]

/-- C4 witness: a source with no IP fails with the configuration-error
message regardless of the (here empty) edge list. -/
theorem C4_witness :
    findPath [fxNoIp, fxHostI] [] (jstr "X") (jstr "I") =
      { success := false, path := [], hops := 0,
        message := jstr "Configuration Error: Source device (" ++ fxNoIp.data.label
          ++ jstr ") is missing a valid IP address." } :=
  (C4_ip_validation [fxNoIp, fxHostI] [] (jstr "X") (jstr "I") fxNoIp fxHostI
      (by decide) (by decide)).2.2.1 (by decide)

/-- C2: once a physical path without down devices is discovered between
endpoints with valid IPs, the routing check runs: if the two /24 subnets
differ and no device on the path is a Router, L3 switch or Firewall, the
call fails with the routing-error message naming both subnets and hop count
zero; with such a device on the path — or with equal subnets — the call
succeeds. -/
theorem C2_routing_requirement (nodes : List NetworkNode) (edges : List Edge)
    (sId tId : JStr) (sN tN : NetworkNode) (p : List JStr)
    (hs : nodes.find? (fun m => m.id == sId) = some sN)
    (ht : nodes.find? (fun m => m.id == tId) = some tN)
    (hips : isValidIP sN.data.ip = true)
    (hipt : isValidIP tN.data.ip = true)
    (hbfs : bfsSearch edges sId tId = some p)
    (hup : p.find? (isDownOn nodes) = none) :
    (getSubnet (sN.data.ip.getD []) ≠ getSubnet (tN.data.ip.getD []) →
      p.any (isRoutingCapableOn nodes) = false →
      findPath nodes edges sId tId =
        { success := false, path := p, hops := 0,
          message := jstr "Routing Error: Devices are in different subnets ("
            ++ getSubnet (sN.data.ip.getD []) ++ jstr ".x vs "
            ++ getSubnet (tN.data.ip.getD [])
            ++ jstr ".x) but no Router/Gateway was found in the path." }) ∧
    (getSubnet (sN.data.ip.getD []) ≠ getSubnet (tN.data.ip.getD []) →
      p.any (isRoutingCapableOn nodes) = true →
      (findPath nodes edges sId tId).success = true) ∧
    (getSubnet (sN.data.ip.getD []) = getSubnet (tN.data.ip.getD []) →
      (findPath nodes edges sId tId).success = true) := by
  have hcommon : findPath nodes edges sId tId =
      (if (getSubnet (sN.data.ip.getD []) = getSubnet (tN.data.ip.getD [])) = false
          ∧ p.any (isRoutingCapableOn nodes) = false then
        { success := false, path := p, hops := 0,
          message := jstr "Routing Error: Devices are in different subnets ("
            ++ getSubnet (sN.data.ip.getD []) ++ jstr ".x vs "
            ++ getSubnet (tN.data.ip.getD [])
            ++ jstr ".x) but no Router/Gateway was found in the path." }
      else
        { success := true, path := p, hops := p.length - 1,
          message := jstr "Success! Packet delivered from " ++ sN.data.ip.getD []
            ++ jstr " to " ++ tN.data.ip.getD [] ++ jstr " via "
            ++ natToJStr (p.length - 1) ++ jstr " hops." }) := by
    simp only [findPath, hs, ht]
    rw [if_neg (by rw [hips]; simp), if_neg (by rw [hipt]; simp), hbfs]
    simp only [hup]
  refine ⟨?_, ?_, ?_⟩
  · intro hdiff hnor
    rw [hcommon, if_pos ⟨by simp [hdiff], hnor⟩]
  · intro hdiff hrt
    rw [hcommon, if_neg (by rw [hrt]; simp)]
  · intro hsame
    rw [hcommon, if_neg (by rw [hsame]; simp)]

/-- C2 witness: 10.0.0.5 and 10.0.1.5 through a lone L2 switch fail with
the routing error; 192.168.1.10 and 192.168.1.11 through the same-subnet
fabric succeed. -/
theorem C2_witness :
    findPath [fxHostH, fxSwG, fxHostI] fxEdgesHGI (jstr "H") (jstr "I") =
      { success := false, path := [jstr "H", jstr "G", jstr "I"], hops := 0,
        message := jstr "Routing Error: Devices are in different subnets ("
          ++ getSubnet ((fxHostH.data.ip).getD []) ++ jstr ".x vs "
          ++ getSubnet ((fxHostI.data.ip).getD [])
          ++ jstr ".x) but no Router/Gateway was found in the path." } ∧
    (findPath [fxPcC, fxSwB, fxPcD]
        [⟨jstr "e2", jstr "B", jstr "C"⟩, ⟨jstr "e3", jstr "B", jstr "D"⟩]
        (jstr "C") (jstr "D")).success = true :=
  ⟨(C2_routing_requirement [fxHostH, fxSwG, fxHostI] fxEdgesHGI (jstr "H") (jstr "I")
      fxHostH fxHostI [jstr "H", jstr "G", jstr "I"]
      (by decide) (by decide) (by decide) (by decide) (by decide) (by decide)).1
      (by decide) (by decide),
   (C2_routing_requirement [fxPcC, fxSwB, fxPcD]
      [⟨jstr "e2", jstr "B", jstr "C"⟩, ⟨jstr "e3", jstr "B", jstr "D"⟩]
      (jstr "C") (jstr "D") fxPcC fxPcD [jstr "C", jstr "B", jstr "D"]
      (by decide) (by decide) (by decide) (by decide) (by decide) (by decide)).2.2
      (by decide)⟩

/-- C3: if the discovered physical path contains a down device, `findPath`
fails with the link-failure message naming the first down device in path
order, hop count zero, and the discovered path in the result.  The theorem
holds whatever the subnets or routing-capable devices are, so this check
precedes the routing check: a down device on the path yields link-failure
even when no router is present and the subnets differ. -/
theorem C3_liveness_short_circuit (nodes : List NetworkNode) (edges : List Edge)
    (sId tId : JStr) (sN tN bn : NetworkNode) (pre post : List JStr) (bid : JStr)
    (hs : nodes.find? (fun m => m.id == sId) = some sN)
    (ht : nodes.find? (fun m => m.id == tId) = some tN)
    (hips : isValidIP sN.data.ip = true)
    (hipt : isValidIP tN.data.ip = true)
    (hbfs : bfsSearch edges sId tId = some (pre ++ bid :: post))
    (hpre : ∀ x ∈ pre, isDownOn nodes x = false)
    (hbid : isDownOn nodes bid = true)
    (hbn : nodes.find? (fun m => m.id == bid) = some bn) :
    findPath nodes edges sId tId =
      { success := false, path := pre ++ bid :: post, hops := 0,
        message := jstr "Link Failure: Packet dropped at " ++ bn.data.label
          ++ jstr " (Device is DOWN)." } := by
  simp only [findPath, hs, ht]
  rw [if_neg (by rw [hips]; simp), if_neg (by rw [hipt]; simp), hbfs]
  simp only [find?_append_first pre post bid (isDownOn nodes) hpre hbid, hbn]

/-- C3 witness: `H—G—I` with G down fails with the link-failure message
naming G, although the endpoints are in different subnets and no router is
in the path (the routing check is never reached). -/
theorem C3_witness :
    findPath [fxHostH, fxSwGDown, fxHostI] fxEdgesHGI (jstr "H") (jstr "I") =
      { success := false, path := [jstr "H"] ++ jstr "G" :: [jstr "I"], hops := 0,
        message := jstr "Link Failure: Packet dropped at " ++ fxSwGDown.data.label
          ++ jstr " (Device is DOWN)." } :=
  C3_liveness_short_circuit [fxHostH, fxSwGDown, fxHostI] fxEdgesHGI
    (jstr "H") (jstr "I") fxHostH fxHostI fxSwGDown [jstr "H"] [jstr "I"] (jstr "G")
    (by decide) (by decide) (by decide) (by decide) (by decide)
    (by decide) (by decide) (by decide)

set_option maxHeartbeats 1000000 in
/-- C5: in GlobalConfig mode the command `vlan <id>`: on a device whose kind
is outside {SwitchL2, SwitchL3} it is rejected with the "does not support
VLANs" response, with no node change and no mode change; on a switch kind
with an id that parses to a number, the session moves to VlanConfig with
that id as context, and the bound device's VLAN table (an absent table
defaulting to `{1: 'default'}`) gains an entry named `VLAN` + the 4-digit
zero-padded id if the id was absent, while an existing entry with a
non-empty name is left untouched (and all other keys are preserved). -/
theorem C5_vlan_global_config (nodes : List NetworkNode) (edges : List Edge) (s : InterpSession)
    (nid : JStr) (n : NetworkNode) (tok : JStr)
    (hmode : s.state.mode = jstr "(config)#")
    (hnid : s.state.nodeId = some nid)
    (hfind : nodes.find? (fun m => m.id == nid) = some n)
    (htok : tok ≠ []) (hws : ∀ c ∈ tok, c.isWhitespace = false) :
    ((n.data.type ≠ .SWITCH_L2 → n.data.type ≠ .SWITCH_L3 →
      (handleCommand nodes edges s (jstr "vlan " ++ tok)).response
          = jstr "% Command rejected: Device does not support VLANs." ∧
      (handleCommand nodes edges s (jstr "vlan " ++ tok)).nodes = nodes ∧
      (handleCommand nodes edges s (jstr "vlan " ++ tok)).session.state.mode
          = s.state.mode) ∧
    (∀ vid : Int, (n.data.type = .SWITCH_L2 ∨ n.data.type = .SWITCH_L3) →
      jsParseInt tok = some vid →
      (handleCommand nodes edges s (jstr "vlan " ++ tok)).session.state.mode
          = jstr "(config-vlan)#" ∧
      (handleCommand nodes edges s (jstr "vlan " ++ tok)).session.contextVlan = vid ∧
      ∃ db1,
        (handleCommand nodes edges s (jstr "vlan " ++ tok)).nodes.find?
            (fun m => m.id == nid)
          = some { n with data := { n.data with vlanDb := some db1 } } ∧
        ((n.data.vlanDb.getD [(1, jstr "default")]).lookup vid = none →
          db1.lookup vid = some (jstr "VLAN" ++ jsPadStart (intToJStr vid) 4 '0') ∧
          ∀ k : Int, k ≠ vid →
            db1.lookup k = (n.data.vlanDb.getD [(1, jstr "default")]).lookup k) ∧
        (∀ nm, (n.data.vlanDb.getD [(1, jstr "default")]).lookup vid = some nm →
          nm ≠ [] → db1 = n.data.vlanDb.getD [(1, jstr "default")]))) := by
  have hlen : 1 ≤ tok.length := by
    cases tok with
    | nil => exact absurd rfl htok
    | cons a as => simp
  have hvl : (jstr "vlan ").length = 5 := by decide
  have hlt : ∀ r : JStr, r.length < 5 + tok.length → jstr "vlan " ++ tok ≠ r := by
    intro r h
    apply append_ne_of_length_lt
    rw [hvl]
    omega
  have hne : (jstr "vlan " ++ tok) ≠ [] := by
    apply hlt
    have h0 : ([] : JStr).length = 0 := by decide
    rw [h0]
    omega
  have hdisp := handleCommand_dispatch_config nodes edges s (jstr "vlan " ++ tok)
    (jstr "vlan " ++ tok) [jstr "vlan", tok] hmode
    (trim_vlan_tok tok htok hws) (splitWs_vlan_tok tok htok hws)
    hne
    (hlt _ (by
      have h0 : (jstr "exit").length = 4 := by decide
      omega))
    (hlt _ (by
      have h0 : (jstr "end").length = 3 := by decide
      omega))
    (hlt _ (by
      have h0 : (jstr "?").length = 1 := by decide
      omega))
    (hlt _ (by
      have h0 : (jstr "help").length = 4 := by decide
      omega))
    (hlt _ (by
      have h0 : (jstr "clear").length = 5 := by decide
      omega))
    (hlt _ (by
      have h0 : (jstr "cls").length = 3 := by decide
      omega))
    (by
      rw [show [jstr "vlan", tok].getD 0 [] = jstr "vlan" from rfl]
      decide)
  have hmcHost : matchCmd (jstr "vlan " ++ tok) (jstr "hostname") = false := by
    rw [matchCmd_of_inputParts _ _ _ hne (inputParts_vlan_tok tok htok hws)]
    rw [show jsSplitWs ((jstr "hostname").map Char.toLower) = [jstr "hostname"] from by decide]
    exact matchParts_false_head _ _ _ _ (by decide)
  have hmcInt : matchCmd (jstr "vlan " ++ tok) (jstr "interface") = false := by
    rw [matchCmd_of_inputParts _ _ _ hne (inputParts_vlan_tok tok htok hws)]
    rw [show jsSplitWs ((jstr "interface").map Char.toLower) = [jstr "interface"] from by decide]
    exact matchParts_false_head _ _ _ _ (by decide)
  have hstep : handleCommand nodes edges s (jstr "vlan " ++ tok) =
      globalConfigStep nodes s (jstr "vlan " ++ tok) [jstr "vlan", tok] (jstr "vlan")
        ((s.state.history ++ [jstr "vlan " ++ tok]).filter (fun c => c ≠ [])) := by
    rw [hdisp]
    rw [show ([jstr "vlan", tok].getD 0 []).map Char.toLower = (jstr "vlan").map Char.toLower from rfl]
    rw [show (jstr "vlan").map Char.toLower = jstr "vlan" from by decide]
  constructor
  · intro hns2 hns3
    rw [hstep]
    simp only [globalConfigStep]
    rw [if_neg (by rw [hmcHost]; exact Bool.false_ne_true)]
    rw [if_neg (by rw [hmcInt]; exact Bool.false_ne_true)]
    rw [if_pos trivial, hnid]
    simp only [getNode, hfind]
    have hincl : jsIncludes n.data.type.str (jstr "SWITCH") = false := by
      rcases hb : jsIncludes n.data.type.str (jstr "SWITCH") with _ | _
      · rfl
      · rcases (jsIncludes_switch_iff n.data.type).mp hb with h | h
        · exact absurd h hns2
        · exact absurd h hns3
    rw [if_pos (by rw [hincl]; exact Bool.false_ne_true)]
    simp [finishStep, hmode]
  · intro vid hsw hvid
    rw [hstep]
    simp only [globalConfigStep]
    rw [if_neg (by rw [hmcHost]; exact Bool.false_ne_true)]
    rw [if_neg (by rw [hmcInt]; exact Bool.false_ne_true)]
    rw [if_pos trivial, hnid]
    simp only [getNode, hfind]
    have hincl : jsIncludes n.data.type.str (jstr "SWITCH") = true :=
      (jsIncludes_switch_iff n.data.type).mpr hsw
    rw [if_neg (by rw [hincl]; simp)]
    rw [show ([jstr "vlan", tok].getD 1 []) = tok from rfl, hvid]
    have hid : n.id = nid := by
      have := List.find?_some hfind
      simpa using this
    refine ⟨rfl, rfl, ?_⟩
    refine ⟨(if vlanDbFalsyAt (n.data.vlanDb.getD [(1, jstr "default")]) vid = true then
        vlanDbSet (n.data.vlanDb.getD [(1, jstr "default")]) vid
          (jstr "VLAN" ++ jsPadStart (intToJStr vid) 4 '0')
      else n.data.vlanDb.getD [(1, jstr "default")]), ?_, ?_, ?_⟩
    · simp only [finishStep]
      rw [find?_map_id_preserving _ _ ?hf nodes]
      case hf =>
        intro x
        by_cases hx : (some nid == some x.id) = true
        · simp [hx]
        · simp [hx]
      rw [hfind]
      have hbeq : (some nid == some n.id) = true := by
        rw [hid]
        simp
      rw [Option.map_some', if_pos hbeq]
    · intro habs
      have hfalsy : vlanDbFalsyAt (n.data.vlanDb.getD [(1, jstr "default")]) vid = true := by
        unfold vlanDbFalsyAt
        rw [habs]
      rw [if_pos hfalsy]
      exact ⟨lookup_vlanDbSet_self _ _ _, fun k hk => lookup_vlanDbSet_ne _ _ _ _ hk⟩
    · intro nm hsome hnm
      have hfalsy : vlanDbFalsyAt (n.data.vlanDb.getD [(1, jstr "default")]) vid = false := by
        unfold vlanDbFalsyAt
        rw [hsome]
        simpa using hnm
      rw [if_neg (by rw [hfalsy]; exact Bool.false_ne_true)]

/-- C5 witness: `vlan 10` is rejected on a PC and, on an L2 switch with an
empty VLAN table, enters VLAN-config mode. -/
theorem C5_witness :
    ((handleCommand [fxSwitch, fxPC] [] fxSessionPC (jstr "vlan " ++ jstr "10")).response
        = jstr "% Command rejected: Device does not support VLANs.") ∧
    ((handleCommand [fxSwitch, fxPC] [] (fxSession "(config)#")
        (jstr "vlan " ++ jstr "10")).session.state.mode = jstr "(config-vlan)#") :=
  ⟨((C5_vlan_global_config [fxSwitch, fxPC] [] fxSessionPC (jstr "pc1") fxPC (jstr "10")
      (by decide) (by decide) (by decide) (by decide) (by decide)).1
      (by decide) (by decide)).1,
   ((C5_vlan_global_config [fxSwitch, fxPC] [] (fxSession "(config)#") (jstr "sw1")
      fxSwitch (jstr "10")
      (by decide) (by decide) (by decide) (by decide) (by decide)).2 10
      (by decide) (by decide)).1⟩

theorem sav_facts (tok : JStr) (htok : tok ≠ [])
    (hws : ∀ c ∈ tok, c.isWhitespace = false) :
    matchCmd (jstr "switchport access vlan " ++ tok) (jstr "shutdown") = false ∧
    jstr "switchport access vlan " ++ tok ≠ jstr "shut" ∧
    matchCmd (jstr "switchport access vlan " ++ tok) (jstr "no shutdown") = false ∧
    jstr "switchport access vlan " ++ tok ≠ jstr "no shut" ∧
    matchCmd (jstr "switchport access vlan " ++ tok) (jstr "switchport mode") = false ∧
    matchCmd (jstr "switchport access vlan " ++ tok) (jstr "switchport access vlan") = true ∧
    ((jsSplitOn (jstr " ") (jstr "switchport access vlan " ++ tok)).getLast?).getD []
      = tok := by
  have hlen : 1 ≤ tok.length := by
    cases tok with
    | nil => exact absurd rfl htok
    | cons a as => simp
  have hsl : (jstr "switchport access vlan ").length = 23 := by decide
  have hlt : ∀ r : JStr, r.length < 23 + tok.length →
      jstr "switchport access vlan " ++ tok ≠ r := by
    intro r h
    apply append_ne_of_length_lt
    rw [hsl]
    omega
  have hne : (jstr "switchport access vlan " ++ tok) ≠ [] := by
    apply hlt
    have h0 : ([] : JStr).length = 0 := by decide
    rw [h0]
    omega
  have hip := inputParts_sav_tok tok htok hws
  refine ⟨?_, ?_, ?_, ?_, ?_, ?_, ?_⟩
  · rw [matchCmd_of_inputParts _ _ _ hne hip]
    rw [show jsSplitWs ((jstr "shutdown").map Char.toLower) = [jstr "shutdown"] from by decide]
    exact matchParts_false_head _ _ _ _ (by decide)
  · apply hlt
    have h0 : (jstr "shut").length = 4 := by decide
    rw [h0]
    omega
  · rw [matchCmd_of_inputParts _ _ _ hne hip]
    rw [show jsSplitWs ((jstr "no shutdown").map Char.toLower)
        = [jstr "no", jstr "shutdown"] from by decide]
    exact matchParts_false_head _ _ _ _ (by decide)
  · apply hlt
    have h0 : (jstr "no shut").length = 7 := by decide
    rw [h0]
    omega
  · rw [matchCmd_of_inputParts _ _ _ hne hip]
    rw [show jsSplitWs ((jstr "switchport mode").map Char.toLower)
        = [jstr "switchport", jstr "mode"] from by decide]
    rw [matchParts_cons_true _ _ _ _ (by decide) (by decide)]
    exact matchParts_false_head _ _ _ _ (by decide)
  · rw [matchCmd_of_inputParts _ _ _ hne hip]
    rw [show jsSplitWs ((jstr "switchport access vlan").map Char.toLower)
        = [jstr "switchport", jstr "access", jstr "vlan"] from by decide]
    rw [matchParts_cons_true _ _ _ _ (by decide) (by decide)]
    rw [matchParts_cons_true _ _ _ _ (by decide) (by decide)]
    rw [matchParts_cons_true _ _ _ _ (by decide) (by decide)]
    exact matchParts_nil_right _
  · rw [splitOn_space_sav_tok tok htok hws]
    rfl

theorem interfaceStep_sav_nan (nodes : List NetworkNode) (edges : List Edge)
    (s : InterpSession) (tok : JStr) (nh : List JStr) (htok : tok ≠ [])
    (hws : ∀ c ∈ tok, c.isWhitespace = false)
    (hnan : jsParseInt tok = none) :
    interfaceConfigStep nodes edges s (jstr "switchport access vlan " ++ tok) nh =
      finishStep nodes s.state nh s.state.mode s.state.hostname s.contextInt
        s.contextVlan s.contextLine [] := by
  obtain ⟨g1, g2, g3, g4, g5, g6, g7⟩ := sav_facts tok htok hws
  simp only [interfaceConfigStep]
  rw [if_neg (by rw [g1]; simp [g2])]
  rw [if_neg (by rw [g3]; simp [g4])]
  rw [if_neg (by rw [g5]; simp)]
  rw [if_pos (by rw [g6])]
  rw [g7, if_neg (by simpa using htok), hnan]

theorem interfaceStep_sav_some (nodes : List NetworkNode) (edges : List Edge)
    (s : InterpSession) (tok : JStr) (nh : List JStr) (vid k : Int) (e : Edge)
    (htok : tok ≠ []) (hws : ∀ c ∈ tok, c.isWhitespace = false)
    (hvid : jsParseInt tok = some vid)
    (htr : trailingDigits s.contextInt ≠ [])
    (hk : jsParseInt (trailingDigits s.contextInt) = some k)
    (hk0 : ¬ (k - 1 < 0))
    (hedge : (getSortedEdges edges (s.state.nodeId.getD [])).get? (k - 1).toNat
      = some e) :
    interfaceConfigStep nodes edges s (jstr "switchport access vlan " ++ tok) nh =
      finishStep
        ((updateInt nodes s.state.nodeId s.contextInt fun c =>
            { c with accessVlan := some vid }).map fun n =>
          if n.id == (if s.state.nodeId == some e.source then e.target else e.source) ∧
              (n.data.type = .PC ∨ n.data.type = .PRINTER ∨ n.data.type = .SERVER) then
            { n with data := { n.data with assignedVlan := some vid } }
          else n)
        s.state nh s.state.mode s.state.hostname s.contextInt s.contextVlan
        s.contextLine
        (jstr "[Sim]: Assigned neighbor device on " ++ s.contextInt
          ++ jstr " to VLAN " ++ intToJStr vid) := by
  obtain ⟨g1, g2, g3, g4, g5, g6, g7⟩ := sav_facts tok htok hws
  simp only [interfaceConfigStep]
  rw [if_neg (by rw [g1]; simp [g2])]
  rw [if_neg (by rw [g3]; simp [g4])]
  rw [if_neg (by rw [g5]; simp)]
  rw [if_pos (by rw [g6])]
  rw [g7, if_neg (by simpa using htok), hvid]
  simp only [if_pos htr, hk, if_neg hk0, hedge]

theorem handleCommand_sav (nodes : List NetworkNode) (edges : List Edge)
    (s : InterpSession) (tok : JStr)
    (hmode : s.state.mode = jstr "(config-if)#")
    (htok : tok ≠ []) (hws : ∀ c ∈ tok, c.isWhitespace = false) :
    handleCommand nodes edges s (jstr "switchport access vlan " ++ tok) =
      interfaceConfigStep nodes edges s (jstr "switchport access vlan " ++ tok)
        ((s.state.history ++ [jstr "switchport access vlan " ++ tok]).filter
          (fun c => c ≠ [])) := by
  have hsl : (jstr "switchport access vlan ").length = 23 := by decide
  have htl : 1 ≤ tok.length := by
    cases tok with
    | nil => exact absurd rfl htok
    | cons a as => simp
  have hlt : ∀ r : JStr, r.length < 23 + tok.length →
      jstr "switchport access vlan " ++ tok ≠ r := by
    intro r h
    apply append_ne_of_length_lt
    rw [hsl]
    omega
  refine handleCommand_dispatch_config_if nodes edges s _ _ _ hmode
    (trim_sav_tok tok htok hws) (splitWs_sav_tok tok htok hws)
    (hlt [] (by rw [show ([] : JStr).length = 0 from by decide]; omega))
    (hlt (jstr "exit") (by rw [show (jstr "exit").length = 4 from by decide]; omega))
    (hlt (jstr "end") (by rw [show (jstr "end").length = 3 from by decide]; omega))
    (hlt (jstr "?") (by rw [show (jstr "?").length = 1 from by decide]; omega))
    (hlt (jstr "help") (by rw [show (jstr "help").length = 4 from by decide]; omega))
    (hlt (jstr "clear") (by rw [show (jstr "clear").length = 5 from by decide]; omega))
    (hlt (jstr "cls") (by rw [show (jstr "cls").length = 3 from by decide]; omega))
    ?_
  rw [show [jstr "switchport", jstr "access", jstr "vlan", tok].getD 0 []
      = jstr "switchport" from rfl]
  decide

/-- **C6** (frame effect, `switchport access vlan`): when the command succeeds
in interface-config mode — the argument parses to `vid`, the bound interface
name carries a trailing digit group parsing to the 1-based index `k`, and the
`k`-th of the device's incident links sorted by link id exists — the device on
the far end of that link has its display VLAN tag set to `vid` if its kind is
PC, Printer or Server, and its record is left entirely unchanged for any other
kind. -/
theorem C6_vlan_propagation (nodes : List NetworkNode) (edges : List Edge)
    (s : InterpSession) (tok : JStr) (vid k : Int) (e : Edge) (nb : NetworkNode)
    (hmode : s.state.mode = jstr "(config-if)#")
    (htok : tok ≠ []) (hws : ∀ c ∈ tok, c.isWhitespace = false)
    (hvid : jsParseInt tok = some vid)
    (htr : trailingDigits s.contextInt ≠ [])
    (hk : jsParseInt (trailingDigits s.contextInt) = some k)
    (hk0 : ¬ (k - 1 < 0))
    (hedge : (getSortedEdges edges (s.state.nodeId.getD [])).get? (k - 1).toNat
      = some e)
    (hnb : nodes.find? (fun n =>
        n.id == (if s.state.nodeId == some e.source then e.target else e.source))
      = some nb)
    (hnbne : (s.state.nodeId == some nb.id) = false) :
    (handleCommand nodes edges s (jstr "switchport access vlan " ++ tok)).nodes.find?
        (fun n =>
          n.id == (if s.state.nodeId == some e.source then e.target else e.source))
      = (if nb.data.type = .PC ∨ nb.data.type = .PRINTER ∨ nb.data.type = .SERVER
         then some { nb with data := { nb.data with assignedVlan := some vid } }
         else some nb) := by
  rw [handleCommand_sav nodes edges s tok hmode htok hws]
  rw [interfaceStep_sav_some nodes edges s tok _ vid k e htok hws hvid htr hk hk0
    hedge]
  set neighborId := if s.state.nodeId == some e.source then e.target else e.source
    with hnbr
  set p : NetworkNode → Bool := fun n => n.id == neighborId with hp
  show (((updateInt nodes s.state.nodeId s.contextInt fun c =>
      { c with accessVlan := some vid }).map _).find? p) = _
  rw [find?_map_id_preserving p _ ?hg]
  case hg =>
    intro x
    by_cases hx : (x.id == neighborId) = true ∧
        (x.data.type = .PC ∨ x.data.type = .PRINTER ∨ x.data.type = .SERVER)
    · rw [if_pos hx]
    · rw [if_neg hx]
  rw [show (updateInt nodes s.state.nodeId s.contextInt fun c =>
      { c with accessVlan := some vid }) = nodes.map (fun n =>
        if s.state.nodeId == some n.id then
          match n.data.interfaces with
          | some ifs =>
            match ifs.lookup s.contextInt with
            | some c =>
              let newIfs := ifs.map fun q =>
                if q.1 == s.contextInt then (q.1, { c with accessVlan := some vid }) else q
              { n with data := { n.data with interfaces := some newIfs } }
            | none => n
          | none => n
        else n) from rfl]
  rw [find?_map_id_preserving p _ ?hu]
  case hu =>
    intro x
    repeat' split
    all_goals rfl
  rw [hnb]
  have hpnb : (nb.id == neighborId) = true := by
    have h0 : p nb = true := List.find?_some hnb
    rwa [hp] at h0
  rw [Option.map_some', if_neg (by rw [hnbne]; simp)]
  rw [Option.map_some']
  by_cases ht : nb.data.type = .PC ∨ nb.data.type = .PRINTER ∨ nb.data.type = .SERVER
  · rw [if_pos ⟨hpnb, ht⟩, if_pos ht]
  · rw [if_neg (fun hc => ht hc.2), if_neg ht]

/-- Witness for C6 at concrete inputs: `switchport access vlan 10` on `sw1`
interface `GigabitEthernet0/1` tags the PC neighbor with VLAN 10, and leaves
a switch neighbor untouched. -/
theorem C6_witness :
    ([fxSwitchIf, fxPC].find? (fun n =>
        n.id == (if fxSessionIf.state.nodeId == some fxEdgeSwPc.source
          then fxEdgeSwPc.target else fxEdgeSwPc.source)) = some fxPC) ∧
    ((handleCommand [fxSwitchIf, fxPC] [fxEdgeSwPc] fxSessionIf
        (jstr "switchport access vlan " ++ jstr "10")).nodes.find?
        (fun n =>
          n.id == (if fxSessionIf.state.nodeId == some fxEdgeSwPc.source
            then fxEdgeSwPc.target else fxEdgeSwPc.source))
      = some { fxPC with data := { fxPC.data with assignedVlan := some 10 } }) ∧
    ((handleCommand [fxSwitchIf, fxSwitch2] [fxEdgeSwSw] fxSessionIf
        (jstr "switchport access vlan " ++ jstr "10")).nodes.find?
        (fun n =>
          n.id == (if fxSessionIf.state.nodeId == some fxEdgeSwSw.source
            then fxEdgeSwSw.target else fxEdgeSwSw.source))
      = some fxSwitch2) := by
  refine ⟨by decide, ?_, ?_⟩
  · rw [C6_vlan_propagation [fxSwitchIf, fxPC] [fxEdgeSwPc] fxSessionIf
      (jstr "10") 10 1 fxEdgeSwPc fxPC (by decide) (by decide) (by decide)
      (by decide) (by decide) (by decide) (by decide) (by decide) (by decide)
      (by decide)]
    decide
  · rw [C6_vlan_propagation [fxSwitchIf, fxSwitch2] [fxEdgeSwSw] fxSessionIf
      (jstr "10") 10 1 fxEdgeSwSw fxSwitch2 (by decide) (by decide) (by decide)
      (by decide) (by decide) (by decide) (by decide) (by decide) (by decide)
      (by decide)]
    decide

/-- **C10 counterexample**: `-3` does not begin with a digit, yet
`parseInt('-3')` is `-3`, not `NaN`, so `switchport access vlan -3` is NOT
silently ignored: the bound interface's access VLAN becomes `-3`, the
propagation message is emitted, and the PC neighbor is tagged with VLAN `-3`. -/
theorem C10_counterexample :
    ('-'.isDigit = false) ∧
    jsParseInt (jstr "-3") = some (-3) ∧
    (handleCommand [fxSwitchIf, fxPC] [fxEdgeSwPc] fxSessionIf
        (jstr "switchport access vlan -3")).response
      = jstr "[Sim]: Assigned neighbor device on GigabitEthernet0/1 to VLAN -3" ∧
    (handleCommand [fxSwitchIf, fxPC] [fxEdgeSwPc] fxSessionIf
        (jstr "switchport access vlan -3")).nodes
      = [fxSwitchIfNeg3, fxPCNeg3] := by
  refine ⟨by decide, by decide, by decide, by decide⟩

/-- **C10** (amended): in interface-config mode, an input matching
`switchport access vlan` whose final token is missing, or whose final token
`parseInt`s to `NaN` (which requires more than not beginning with a digit: a
leading sign or `0x` prefix can still parse), is silently ignored — the node
list is returned unchanged, the response is empty (so no `%` marker), the
session stays in interface-config mode, and the advisory-hint hook does not
fire. -/
theorem C10_nan_or_missing_ignored (nodes : List NetworkNode) (edges : List Edge)
    (s : InterpSession) (tok : JStr)
    (hmode : s.state.mode = jstr "(config-if)#")
    (htok : tok ≠ []) (hws : ∀ c ∈ tok, c.isWhitespace = false)
    (hnan : jsParseInt tok = none) :
    ((handleCommand nodes edges s (jstr "switchport access vlan " ++ tok)).nodes
        = nodes ∧
      (handleCommand nodes edges s (jstr "switchport access vlan " ++ tok)).response
        = [] ∧
      (handleCommand nodes edges s
          (jstr "switchport access vlan " ++ tok)).session.state.mode
        = jstr "(config-if)#" ∧
      (handleCommand nodes edges s
          (jstr "switchport access vlan " ++ tok)).aiHintTriggered = false) ∧
    ((handleCommand nodes edges s (jstr "switchport access vlan")).nodes = nodes ∧
      (handleCommand nodes edges s (jstr "switchport access vlan")).response = [] ∧
      (handleCommand nodes edges s
          (jstr "switchport access vlan")).session.state.mode
        = jstr "(config-if)#" ∧
      (handleCommand nodes edges s
          (jstr "switchport access vlan")).aiHintTriggered = false) := by
  constructor
  · rw [handleCommand_sav nodes edges s tok hmode htok hws]
    rw [interfaceStep_sav_nan nodes edges s tok _ htok hws hnan]
    refine ⟨rfl, rfl, hmode, ?_⟩
    show List.isPrefixOf (jstr "%") [] = false
    decide
  · rw [handleCommand_dispatch_config_if nodes edges s (jstr "switchport access vlan")
      (jstr "switchport access vlan")
      [jstr "switchport", jstr "access", jstr "vlan"] hmode (by decide) (by decide)
      (by decide) (by decide) (by decide) (by decide) (by decide) (by decide)
      (by decide) (by decide)]
    simp only [interfaceConfigStep]
    rw [if_neg (by decide), if_neg (by decide), if_neg (by decide),
      if_pos (by decide)]
    rw [show ((jsSplitOn (jstr " ") (jstr "switchport access vlan")).getLast?).getD []
        = jstr "vlan" from by decide]
    rw [if_neg (by decide)]
    rw [show jsParseInt (jstr "vlan") = none from by decide]
    refine ⟨rfl, rfl, hmode, ?_⟩
    show List.isPrefixOf (jstr "%") [] = false
    decide

/-- Witness for C10 at a concrete input: `switchport access vlan x10` (and the
argument-free `switchport access vlan`) on `sw1` leave the nodes unchanged with
an empty response. -/
theorem C10_witness :
    ((handleCommand [fxSwitchIf, fxPC] [fxEdgeSwPc] fxSessionIf
        (jstr "switchport access vlan " ++ jstr "x10")).nodes
      = [fxSwitchIf, fxPC] ∧
     (handleCommand [fxSwitchIf, fxPC] [fxEdgeSwPc] fxSessionIf
        (jstr "switchport access vlan " ++ jstr "x10")).response = [] ∧
     (handleCommand [fxSwitchIf, fxPC] [fxEdgeSwPc] fxSessionIf
        (jstr "switchport access vlan " ++ jstr "x10")).session.state.mode
      = jstr "(config-if)#" ∧
     (handleCommand [fxSwitchIf, fxPC] [fxEdgeSwPc] fxSessionIf
        (jstr "switchport access vlan " ++ jstr "x10")).aiHintTriggered = false) ∧
    ((handleCommand [fxSwitchIf, fxPC] [fxEdgeSwPc] fxSessionIf
        (jstr "switchport access vlan")).nodes = [fxSwitchIf, fxPC] ∧
     (handleCommand [fxSwitchIf, fxPC] [fxEdgeSwPc] fxSessionIf
        (jstr "switchport access vlan")).response = [] ∧
     (handleCommand [fxSwitchIf, fxPC] [fxEdgeSwPc] fxSessionIf
        (jstr "switchport access vlan")).session.state.mode
      = jstr "(config-if)#" ∧
     (handleCommand [fxSwitchIf, fxPC] [fxEdgeSwPc] fxSessionIf
        (jstr "switchport access vlan")).aiHintTriggered = false) :=
  C10_nan_or_missing_ignored [fxSwitchIf, fxPC] [fxEdgeSwPc] fxSessionIf
    (jstr "x10") (by decide) (by decide) (by decide) (by decide)

theorem finishStep_history (nodes : List NetworkNode) (st : TerminalState)
    (nh : List JStr) (m hn ci : JStr) (cv : Int) (cl r : JStr) :
    (finishStep nodes st nh m hn ci cv cl r).session.state.history = nh := rfl

theorem userExecStep_history (nodes : List NetworkNode) (edges : List Edge)
    (s : InterpSession) (cmd : JStr) (tokens : List JStr) (nh : List JStr) :
    (userExecStep nodes edges s cmd tokens nh).session.state.history = nh := by
  simp only [userExecStep]
  repeat' split
  all_goals rfl

theorem privExecStep_history (nodes : List NetworkNode) (edges : List Edge)
    (s : InterpSession) (cmd firstToken : JStr) (nh : List JStr)
    (hnr : matchCmd cmd (jstr "reload") = false) :
    (privExecStep nodes edges s cmd firstToken nh).session.state.history = nh := by
  simp only [privExecStep]
  repeat' split
  all_goals first
    | rfl
    | (rename_i h
       rw [hnr] at h
       exact Bool.noConfusion h)

theorem globalConfigStep_history (nodes : List NetworkNode) (s : InterpSession)
    (cmd : JStr) (tokens : List JStr) (firstToken : JStr) (nh : List JStr) :
    (globalConfigStep nodes s cmd tokens firstToken nh).session.state.history
      = nh := by
  simp only [globalConfigStep]
  repeat' split
  all_goals rfl

theorem interfaceConfigStep_history (nodes : List NetworkNode) (edges : List Edge)
    (s : InterpSession) (cmd : JStr) (nh : List JStr) :
    (interfaceConfigStep nodes edges s cmd nh).session.state.history = nh := by
  simp only [interfaceConfigStep]
  repeat' split
  all_goals rfl

theorem vlanConfigStep_history (nodes : List NetworkNode) (s : InterpSession)
    (cmd : JStr) (tokens : List JStr) (firstToken : JStr) (nh : List JStr) :
    (vlanConfigStep nodes s cmd tokens firstToken nh).session.state.history
      = nh := by
  simp only [vlanConfigStep]
  repeat' split
  all_goals rfl

/-- **C9 counterexample**: `clear` is a non-empty command line, yet the
early-return branches skip the history write-back: after `clear` (and likewise
after `exit` from user-exec mode, which closes the terminal) the session's
history is unchanged instead of gaining the line. -/
theorem C9_counterexample :
    jsTrim (jstr "clear") ≠ [] ∧
    (handleCommand [fxSwitch] [] fxSessionUser (jstr "clear")).session.state.history
      = [jstr "enable"] ∧
    jsTrim (jstr "exit") ≠ [] ∧
    (handleCommand [fxSwitch] [] fxSessionUser (jstr "exit")).session.state.history
      = [jstr "enable"] ∧
    (handleCommand [fxSwitch] [] (fxSession "#") (jstr "reload")).session.state.history
      = [] := by
  refine ⟨by decide, by decide, by decide, by decide, by decide⟩

/-- **C9** (amended): when the trimmed line is non-empty and none of the
write-back-skipping branches fires (`clear`/`cls`, `reload` in privileged
mode, `exit` outside the five mode-popping cases, which closes the terminal),
and every existing history entry is non-empty, the history after the command
is the history before it with the raw line appended; recall then walks the
appended list from most recent to oldest, clamps at the oldest, and walks
back down to a cleared prompt. -/
theorem C9_history_append (nodes : List NetworkNode) (edges : List Edge)
    (s : InterpSession) (input : JStr)
    (h1 : jsTrim input ≠ [])
    (h2 : jsTrim input ≠ jstr "clear") (h3 : jsTrim input ≠ jstr "cls")
    (h4 : ¬(s.state.mode = jstr "#" ∧
      matchCmd (jsTrim input) (jstr "reload") = true))
    (h5 : ¬(jsTrim input = jstr "exit" ∧ s.state.mode ≠ jstr "(config-line)#" ∧
      s.state.mode ≠ jstr "(config-if)#" ∧ s.state.mode ≠ jstr "(config-vlan)#" ∧
      s.state.mode ≠ jstr "(config)#" ∧ s.state.mode ≠ jstr "#"))
    (h6 : ∀ x ∈ s.state.history, x ≠ []) :
    (handleCommand nodes edges s input).session.state.history
      = s.state.history ++ [input] ∧
    (∀ c, recallUp (s.state.history ++ [input]) (-1) c
      = (0, (s.state.history ++ [input]).getD
          ((s.state.history ++ [input]).length - 1) [])) ∧
    (∀ c (i : Int), 0 ≤ i →
      i + 1 ≤ ((s.state.history ++ [input]).length : Int) - 1 →
      recallUp (s.state.history ++ [input]) i c
        = (i + 1, (s.state.history ++ [input]).getD
            ((s.state.history ++ [input]).length - 2 - i.toNat) []) ∧
      recallDown (s.state.history ++ [input]) (i + 1)
        = (i, (s.state.history ++ [input]).getD
            ((s.state.history ++ [input]).length - 1 - i.toNat) [])) ∧
    (∀ c, recallUp (s.state.history ++ [input])
        (((s.state.history ++ [input]).length : Int) - 1) c
      = (((s.state.history ++ [input]).length : Int) - 1,
         (s.state.history ++ [input]).getD 0 [])) ∧
    recallDown (s.state.history ++ [input]) 0 = (-1, []) := by
  have hinput : input ≠ [] := by
    intro he
    exact h1 (by rw [he]; decide)
  have hfil : (s.state.history ++ [input]).filter (fun c => c ≠ []) =
      s.state.history ++ [input] := by
    rw [List.filter_eq_self]
    intro a ha
    rcases List.mem_append.mp ha with h | h
    · simpa using h6 a h
    · simp at h
      subst h
      simpa using hinput
  have hlen : 0 < (s.state.history ++ [input]).length := by
    simp
  refine ⟨?_, ?_, ?_, ?_, ?_⟩
  · simp only [handleCommand]
    rw [if_neg h1]
    by_cases hexit : jsTrim input = jstr "exit"
    · rw [if_pos hexit]
      by_cases hm1 : s.state.mode = jstr "(config-line)#"
      · rw [if_pos hm1, finishStep_history, hfil]
      rw [if_neg hm1]
      by_cases hm2 : s.state.mode = jstr "(config-if)#"
      · rw [if_pos hm2, finishStep_history, hfil]
      rw [if_neg hm2]
      by_cases hm3 : s.state.mode = jstr "(config-vlan)#"
      · rw [if_pos hm3, finishStep_history, hfil]
      rw [if_neg hm3]
      by_cases hm4 : s.state.mode = jstr "(config)#"
      · rw [if_pos hm4, finishStep_history, hfil]
      rw [if_neg hm4]
      by_cases hm5 : s.state.mode = jstr "#"
      · rw [if_pos hm5, finishStep_history, hfil]
      exact absurd ⟨hexit, hm1, hm2, hm3, hm4, hm5⟩ h5
    rw [if_neg hexit]
    by_cases hend : jsTrim input = jstr "end"
    · rw [if_pos hend, finishStep_history, hfil]
    rw [if_neg hend]
    by_cases hq : jsTrim input = jstr "?" ∨ jsTrim input = jstr "help"
    · rw [if_pos hq, finishStep_history, hfil]
    rw [if_neg hq, if_neg (not_or.mpr ⟨h2, h3⟩)]
    by_cases hdo : ((jsSplitWs (jsTrim input)).getD 0 []).map Char.toLower
        = jstr "do"
    · rw [if_pos hdo, finishStep_history, hfil]
    rw [if_neg hdo]
    by_cases hmu : s.state.mode = jstr ">"
    · rw [if_pos hmu, userExecStep_history, hfil]
    rw [if_neg hmu]
    by_cases hmp : s.state.mode = jstr "#"
    · rw [if_pos hmp]
      have hnr : matchCmd (jsTrim input) (jstr "reload") = false := by
        cases hr : matchCmd (jsTrim input) (jstr "reload") with
        | false => rfl
        | true => exact absurd ⟨hmp, hr⟩ h4
      rw [privExecStep_history nodes edges s _ _ _ hnr, hfil]
    rw [if_neg hmp]
    by_cases hmg : s.state.mode = jstr "(config)#"
    · rw [if_pos hmg, globalConfigStep_history, hfil]
    rw [if_neg hmg]
    by_cases hmi : s.state.mode = jstr "(config-if)#"
    · rw [if_pos hmi, interfaceConfigStep_history, hfil]
    rw [if_neg hmi]
    by_cases hmv : s.state.mode = jstr "(config-vlan)#"
    · rw [if_pos hmv, vlanConfigStep_history, hfil]
    rw [if_neg hmv, finishStep_history, hfil]
  · intro c
    simp only [recallUp]
    rw [if_pos hlen, if_pos trivial]
    rfl
  · intro c i hi hile
    constructor
    · simp only [recallUp]
      rw [if_pos hlen, if_neg (by omega)]
      rw [min_eq_left hile]
      have hidx : (s.state.history ++ [input]).length - 1 - (i + 1).toNat
          = (s.state.history ++ [input]).length - 2 - i.toNat := by
        omega
      rw [hidx]
    · simp only [recallDown]
      rw [if_pos (by omega)]
      have hidx : (i + 1 - 1).toNat = i.toNat := by omega
      rw [show i + 1 - 1 = i from by omega]
  · intro c
    simp only [recallUp]
    rw [if_pos hlen, if_neg (by omega)]
    rw [min_eq_right (by omega)]
    have hidx : (s.state.history ++ [input]).length - 1
        - (((s.state.history ++ [input]).length : Int) - 1).toNat = 0 := by
      omega
    rw [hidx]
  · simp only [recallDown]
    rw [if_neg (by omega)]

/-- Witness for C9 at a concrete input: `show clock` in user-exec mode appends
to the one-entry history, and recall walks `[enable, show clock]` up to the
oldest entry, clamps there, and back down to a cleared prompt. -/
theorem C9_witness :
    ((handleCommand [fxSwitch] [] fxSessionUser (jstr "show clock")).session.state.history
      = [jstr "enable", jstr "show clock"]) ∧
    recallUp [jstr "enable", jstr "show clock"] (-1) [] = (0, jstr "show clock") ∧
    recallUp [jstr "enable", jstr "show clock"] 0 [] = (1, jstr "enable") ∧
    recallUp [jstr "enable", jstr "show clock"] 1 [] = (1, jstr "enable") ∧
    recallDown [jstr "enable", jstr "show clock"] 1 = (0, jstr "show clock") ∧
    recallDown [jstr "enable", jstr "show clock"] 0 = (-1, []) := by
  obtain ⟨hh, hup0, hmid, hclamp, hdown0⟩ :=
    C9_history_append [fxSwitch] [] fxSessionUser (jstr "show clock")
      (by decide) (by decide) (by decide) (by decide) (by decide) (by decide)
  have heq : fxSessionUser.state.history ++ [jstr "show clock"]
      = [jstr "enable", jstr "show clock"] := by decide
  obtain ⟨hu, hd⟩ := hmid [] 0 (by decide) (by rw [heq]; decide)
  refine ⟨?_, ?_, ?_, ?_, ?_, ?_⟩
  · rw [hh, heq]
  · have := hup0 []
    rw [heq] at this
    rw [this]
    decide
  · rw [heq] at hu
    rw [hu]
    decide
  · have := hclamp []
    rw [heq] at this
    rw [show ((([jstr "enable", jstr "show clock"] : List JStr).length : Int) - 1)
        = 1 from by decide] at this
    rw [this]
    decide
  · rw [heq] at hd
    rw [show (0 : Int) + 1 = 1 from by decide] at hd
    rw [hd]
    decide
  · rw [heq] at hdown0
    exact hdown0
